import Mathlib

/-!
Shallow embedding of the nanobot transport correlation and delivery layer
(`src/nanobot/channels/openaiapi.py`, `src/nanobot/channels/webui.py`) and of
the web tools (`src/nanobot/agent/tools/web.py`), with theorems checking the
natural-language specification against the code.
-/

namespace Nanobot

/-- The ASCII whitespace characters Python `str.strip()` removes. -/
def isPyWhitespace (c : Char) : Bool :=
  c = ' ' || c = Char.ofNat 9 || c = Char.ofNat 10 || c = Char.ofNat 13 ||
  c = Char.ofNat 11 || c = Char.ofNat 12

/-- Model of Python `str.strip()`: remove leading and trailing whitespace. -/
def pyStrip (s : String) : String :=
  String.mk (((s.data.dropWhile isPyWhitespace).reverse.dropWhile isPyWhitespace).reverse)

/-- Model of Python `str.lower()` (ASCII lowering, as used on role names). -/
def pyLower (s : String) : String := String.mk (s.data.map Char.toLower)

/-- Python `a.startswith(b)` (also the model of `String.startswith` checks in
the source). -/
def isPrefixChars : List Char → List Char → Bool
  | [], _ => true
  | _ :: _, [] => false
  | a :: as, b :: bs => a = b && isPrefixChars as bs

/-- Python `s.startswith(pre)`. -/
def pyStartsWith (s pre : String) : Bool := isPrefixChars pre.data s.data

/-- Python `s.endswith(suf)`. -/
def pyEndsWith (s suf : String) : Bool := isPrefixChars suf.data.reverse s.data.reverse

/-- Python `sep.join(parts)`. -/
def joinWith (sep : String) : List String → String
  | [] => ""
  | [x] => x
  | x :: y :: xs => x ++ sep ++ joinWith sep (y :: xs)

/-- Split a character list on a separator character, Python `s.split(sep)`
for a one-character separator (the empty string yields `[""]`). -/
def splitOnChar (sep : Char) : List Char → List (List Char)
  | [] => [[]]
  | c :: rest =>
    let r := splitOnChar sep rest
    if c = sep then [] :: r
    else
      match r with
      | [] => [[c]]
      | g :: gs => (c :: g) :: gs

/-- Digits-only parse of a character list (`none` if empty or non-digit). -/
def parseNatChars (cs : List Char) : Option Nat :=
  if cs ≠ [] && cs.all Char.isDigit then
    some (cs.foldl (fun acc c => acc * 10 + (c.toNat - 48)) 0)
  else none

/-! ## Correlation table (`OpenAIAPIChannel._pending`)

`_pending : dict[str, asyncio.Future[str]]` maps a request id to the future
that the HTTP handler awaits.  The handler keeps its own reference to the
future, so the future outlives its table entry. -/

/-- State of one `asyncio.Future[str]`: still pending, resolved with the agent
reply content, or cancelled (by the `asyncio.wait_for` timeout or by `stop`).
A resolved or cancelled future is `done()`. -/
inductive FutState
  | pending
  | resolved (content : String)
  | cancelled
deriving DecidableEq, Repr

/-- `fut.done()`. -/
def FutState.done : FutState → Bool
  | .pending => false
  | _ => true

/-- The view of one correlation id: whether the id is currently a key of
`self._pending`, and the state of the future the HTTP handler holds for it. -/
structure Correlation where
  inTable : Bool
  fut : FutState
deriving DecidableEq, Repr

/-- The state just after `self._pending[request_id] = fut`, with
`fut = loop.create_future()` (openaiapi.py lines 137-139). -/
def Correlation.registered : Correlation := ⟨true, .pending⟩

/-- `OpenAIAPIChannel.send` (openaiapi.py lines 69-82) for an outbound message
whose `request_id` metadata equals this id:
`future = self._pending.pop(request_id, None)`; if there was no entry the
message is dropped (warning logged, no exception); otherwise
`if not future.done(): future.set_result(msg.content)`.
The returned flag records whether `set_result` ran, i.e. whether a waiter was
woken with the reply content. -/
def resolveStep (c : String) (st : Correlation) : Correlation × Bool :=
  if st.inTable then
    if st.fut.done then ({ st with inTable := false }, false)
    else ({ inTable := false, fut := .resolved c }, true)
  else (st, false)

/-- The deadline firing inside `asyncio.wait_for(fut, timeout=...)`
(openaiapi.py lines 157-159 and 212): the future is cancelled if it is still
pending, in which case the waiter wakes with a timeout error (the returned
flag).  Cancelling an already-done future is a no-op. -/
def timeoutCancelStep (st : Correlation) : Correlation × Bool :=
  if st.fut = .pending then ({ st with fut := .cancelled }, true) else (st, false)

/-- `self._pending.pop(request_id, None)` in the `except asyncio.TimeoutError`
handler (openaiapi.py lines 161 and 214).  Never wakes anyone. -/
def timeoutPopStep (st : Correlation) : Correlation :=
  { st with inTable := false }

/-- The per-id body of `OpenAIAPIChannel.stop` (openaiapi.py lines 64-67):
`if not fut.done(): fut.cancel()` then `self._pending.pop(req_id, None)`.
The returned flag records whether the waiter was woken (by cancellation). -/
def stopStep (st : Correlation) : Correlation × Bool :=
  (⟨false, if st.fut.done then st.fut else .cancelled⟩, !st.fut.done)

/-- The atomic scheduler steps that can touch one correlation id. -/
inductive Act
  | resolve (content : String)
  | timeoutFire
  | timeoutPop
  | stopDrain
deriving DecidableEq, Repr

/-- One atomic step; the flag records whether the waiter was woken by it. -/
def step : Act → Correlation → Correlation × Bool
  | .resolve c, st => resolveStep c st
  | .timeoutFire, st => timeoutCancelStep st
  | .timeoutPop, st => (timeoutPopStep st, false)
  | .stopDrain, st => stopStep st

/-- Run a sequence of steps, counting how many of them woke the waiter. -/
def run : List Act → Correlation → Correlation × Nat
  | [], st => (st, 0)
  | a :: as, st =>
    let r := step a st
    let rest := run as r.1
    (rest.1, (if r.2 then 1 else 0) + rest.2)

/-! ## The pending table as a whole (`dict[str, asyncio.Future[str]]`)

An association list with at-most-one entry per key models the Python dict. -/

/-- The whole `_pending` table: request id to the state of its future. -/
abbrev PendingTable := List (String × FutState)

/-- `tbl.get(id)` on an association-list dict. -/
def lookupTable (id : String) (tbl : PendingTable) : Option FutState :=
  (tbl.find? (fun e => e.1 = id)).map Prod.snd

/-- `tbl.pop(id, None)`: remove the entry for `id` if present. -/
def popTable (id : String) (tbl : PendingTable) : PendingTable :=
  tbl.filter (fun e => e.1 ≠ id)

/-- `self._pending[request_id] = fut` (openaiapi.py line 139): plain dict
assignment with a fresh pending future; any existing entry for the same key is
replaced, with no presence check and no error. -/
def insertPending (id : String) (tbl : PendingTable) : PendingTable :=
  popTable id tbl ++ [(id, FutState.pending)]

/-- `OpenAIAPIChannel.send` acting on the whole table: pop the entry for the
request id (dropping the message if there is none), and `set_result` if the
future is not done.  Returns the new table and whether a waiter was woken. -/
def sendTable (id : String) (tbl : PendingTable) : PendingTable × Bool :=
  match lookupTable id tbl with
  | none => (tbl, false)
  | some f => (popTable id tbl, !f.done)

/-- The loop of `OpenAIAPIChannel.stop` (openaiapi.py lines 64-67) as it acts
on the table: iterate over a snapshot of the items, popping each id. -/
def stopPendingLoop : List (String × FutState) → PendingTable → PendingTable
  | [], table => table
  | e :: rest, table => stopPendingLoop rest (popTable e.1 table)

/-- `OpenAIAPIChannel.stop` on the pending table: returns the table after the
loop together with the final state of every future that was in the snapshot
(`if not fut.done(): fut.cancel()`). -/
def stopPending (tbl : PendingTable) : PendingTable × List (String × FutState) :=
  (stopPendingLoop tbl tbl,
   tbl.map (fun e => (e.1, if e.2.done then e.2 else FutState.cancelled)))

/-! ## Connection registry (`WebUIChannel._connections`)

`_connections : dict[str, WebSocket]` maps a chat id to the live socket,
modeled here by an association list from key to an opaque handle number. -/

/-- The connection registry: `chat_id` to WebSocket handle. -/
abbrev ConnMap := List (String × Nat)

/-- `self._connections.get(chat_id)`. -/
def lookupConn (key : String) (m : ConnMap) : Option Nat :=
  (m.find? (fun e => e.1 = key)).map Prod.snd

/-- `self._connections.pop(chat_id, None)`. -/
def popConn (key : String) (m : ConnMap) : ConnMap :=
  m.filter (fun e => e.1 ≠ key)

/-- `self._connections[chat_id] = websocket` (webui.py line 177): dict
assignment, unconditionally replacing any existing entry for the key. -/
def acceptConn (key : String) (h : Nat) (m : ConnMap) : ConnMap :=
  popConn key m ++ [(key, h)]

/-- The outcome of one `WebUIChannel.send` call.  `attempts` records each
`ws.send_text` write that was attempted, as (handle, frame content) pairs.
The Python method is annotated `-> None`: `retval` records the value it
returns, `none` standing for Python `None` (a `some b` would stand for a
returned boolean). -/
structure SendOutcome where
  conns : ConnMap
  attempts : List (Nat × String)
  retval : Option Bool
deriving DecidableEq, Repr

/-- `WebUIChannel.send` (webui.py lines 97-112): look up the current socket
for `msg.chat_id`; if none, log a warning and return; otherwise attempt one
`send_text`; if that raises (modeled by `sendFails handle`), evict the entry.
No path retries the write, and every path returns `None`. -/
def webuiSend (sendFails : Nat → Bool) (chatId content : String) (m : ConnMap) : SendOutcome :=
  match lookupConn chatId m with
  | none => ⟨m, [], none⟩
  | some h =>
    if sendFails h then ⟨popConn chatId m, [(h, content)], none⟩
    else ⟨m, [(h, content)], none⟩

/-- `WebUIChannel.stop` (webui.py lines 83-95) on the registry: close every
socket in a snapshot of the values (returned as the list of closed handles),
then `self._connections.clear()`. -/
def stopWebui (m : ConnMap) : ConnMap × List Nat :=
  ([], m.map Prod.snd)

/-- Keys of an association-list registry are pairwise distinct: the dict
invariant (at most one entry per key at any instant). -/
def keysNodup (m : List (String × Nat)) : Prop :=
  (m.map Prod.fst).Nodup

/-! ## OpenAI response rendering (non-streaming object and streamed chunks) -/

/-- The `delta` object of a streamed chunk choice. -/
structure Delta where
  role : Option String
  content : Option String
deriving DecidableEq, Repr

/-- One element of a chunk's `choices` array. -/
structure ChunkChoice where
  index : Nat
  delta : Delta
  finishReason : Option String
deriving DecidableEq, Repr

/-- One `chat.completion.chunk` event of the SSE stream. -/
structure Chunk where
  id : String
  object : String
  created : Nat
  model : String
  choices : List ChunkChoice
deriving DecidableEq, Repr

/-- The first streamed chunk (openaiapi.py lines 175-190): an assistant delta
carrying the whole agent reply, `finish_reason` null. -/
def firstChunk (completionId : String) (now : Nat) (content : String) : Chunk :=
  ⟨completionId, "chat.completion.chunk", now, "nanobot-agent",
   [⟨0, ⟨some "assistant", some content⟩, none⟩]⟩

/-- The final streamed chunk (openaiapi.py lines 193-205): an empty delta with
`finish_reason` `"stop"`. -/
def finalChunk (completionId : String) (now : Nat) : Chunk :=
  ⟨completionId, "chat.completion.chunk", now, "nanobot-agent",
   [⟨0, ⟨none, none⟩, some "stop"⟩]⟩

/-- The success path of `event_stream` (openaiapi.py lines 174-207): exactly
two chunks, followed by the `data: [DONE]` terminator (not part of the chunk
list). -/
def eventStreamChunks (completionId : String) (now : Nat) (content : String) : List Chunk :=
  [firstChunk completionId now content, finalChunk completionId now]

/-- The `message` object of a non-streaming choice. -/
structure RespMessage where
  role : String
  content : String
deriving DecidableEq, Repr

/-- One element of the non-streaming `choices` array. -/
structure RespChoice where
  index : Nat
  message : RespMessage
  finishReason : Option String
deriving DecidableEq, Repr

/-- The `usage` object (all zeros in the source). -/
structure Usage where
  promptTokens : Nat
  completionTokens : Nat
  totalTokens : Nat
deriving DecidableEq, Repr

/-- The non-streaming `chat.completion` response object. -/
structure ChatCompletionResponse where
  id : String
  object : String
  created : Nat
  model : String
  choices : List RespChoice
  usage : Usage
deriving DecidableEq, Repr

/-- The non-streaming success response (openaiapi.py lines 223-243). -/
def nonStreamingResponse (completionId : String) (now : Nat) (content : String) :
    ChatCompletionResponse :=
  ⟨completionId, "chat.completion", now, "nanobot-agent",
   [⟨0, ⟨"assistant", content⟩, some "stop"⟩], ⟨0, 0, 0⟩⟩

/-- Client-side rendering of a streamed reply: concatenate the `delta.content`
fields of all chunks (absent contents contribute nothing). -/
def deltaConcat (chunks : List Chunk) : String :=
  String.join (chunks.map (fun ch =>
    String.join (ch.choices.map (fun c => c.delta.content.getD ""))))

/-! ## Message normalization (`_message_text`, `_normalize_messages_for_agent`) -/

/-- The value of a content part's `"text"` field: a Python string or a value
of any other type (`isinstance(text, str)` fails). -/
inductive PartText
  | str (s : String)
  | nonStr
deriving DecidableEq, Repr

/-- One element of a content-parts list: a dict with optional `"type"` and
`"text"` fields, or a non-dict value (skipped by the source). -/
inductive ContentPart
  | dict (type? : Option String) (text? : Option PartText)
  | nonDict
deriving DecidableEq, Repr

/-- An OpenAI message `content` value: a string, a list of parts, or a value
of any other type (yields no text). -/
inductive MsgContent
  | str (s : String)
  | parts (l : List ContentPart)
  | other
deriving DecidableEq, Repr

/-- One element of the request's `messages` array: a dict with a `role`
value (`none` models an absent or falsy role, `some s` the `str()` rendering
of a present truthy role) and a `content` value, or a non-dict element. -/
inductive RawMsg
  | dict (role? : Option String) (content : MsgContent)
  | nonDict
deriving DecidableEq, Repr

/-- `OpenAIAPIChannel._message_text` (openaiapi.py lines 268-285): a string
content is stripped; a parts list keeps the stripped `text` of each dict part
whose `type` is `"text"` and whose text is a non-blank string, joined by
newlines and stripped; anything else yields `""`. -/
def messageText : MsgContent → String
  | .str s => pyStrip s
  | .parts l =>
    let texts := l.filterMap (fun p =>
      match p with
      | .dict type? text? =>
        if type? = some "text" then
          match text? with
          | some (.str t) => if pyStrip t ≠ "" then some (pyStrip t) else none
          | _ => none
        else none
      | .nonDict => none)
    pyStrip (joinWith "\n" texts)
  | .other => ""

/-- One normalized message: a role in `{system, user, assistant}` and a
non-empty text. -/
structure NormMsg where
  role : String
  content : String
deriving DecidableEq, Repr

/-- The first loop of `_normalize_messages_for_agent` (openaiapi.py lines
309-325): skip non-dicts; strip+lower the role, mapping `developer` to
`system`; keep only `system`/`user`/`assistant` roles with non-empty text. -/
def normalizeList (msgs : List RawMsg) : List NormMsg :=
  msgs.filterMap (fun raw =>
    match raw with
    | .nonDict => none
    | .dict role? content =>
      let role0 := pyLower (pyStrip (role?.getD ""))
      let role := if role0 = "developer" then "system" else role0
      if role = "system" ∨ role = "user" ∨ role = "assistant" then
        let text := messageText content
        if text ≠ "" then some ⟨role, text⟩ else none
      else none)

/-- The index loop of `_normalize_messages_for_agent` (openaiapi.py lines
330-334), scanning the reversed normalized list for the last `user` entry:
history is everything before it, the prompt is its content. -/
def scanRevForUser : List NormMsg → Option (List NormMsg × String)
  | [] => none
  | m :: rest =>
    if m.role = "user" then some (rest.reverse, m.content) else scanRevForUser rest

/-- `OpenAIAPIChannel._normalize_messages_for_agent` (openaiapi.py lines
307-336): normalize, then split at the last user message; with no user
message, the last normalized message overall is the prompt and the rest the
history; with nothing normalized, `([], "")`. -/
def normalizeMessagesForAgent (msgs : List RawMsg) : List NormMsg × String :=
  let normalized := normalizeList msgs
  if normalized = [] then ([], "")
  else
    match scanRevForUser normalized.reverse with
    | some hp => hp
    | none => (normalized.dropLast, ((normalized.getLast?).map NormMsg.content).getD "")

/-- Index of the first entry of a list satisfying `p`, `none` if there is
none. -/
def findFirstIdx (p : NormMsg → Bool) : List NormMsg → Option Nat
  | [] => none
  | m :: rest => if p m then some 0 else (findFirstIdx p rest).map (· + 1)

/-- The split as the specification words it: the index of the last message
authored by the `user` role, if any. -/
def lastUserIdx (norm : List NormMsg) : Option Nat :=
  (findFirstIdx (fun m => m.role = "user") norm.reverse).map (fun k => norm.length - 1 - k)

/-- The normalization contract as the specification words it: take the last
`user`-role message as the prompt and everything before it as history; if no
message has the user role, the last message overall is the prompt and the
remainder the history. -/
def splitSpec (norm : List NormMsg) : List NormMsg × String :=
  match lastUserIdx norm with
  | some i => (norm.take i, ((norm[i]?).map NormMsg.content).getD "")
  | none =>
    if norm = [] then ([], "")
    else (norm.dropLast, ((norm.getLast?).map NormMsg.content).getD "")

/-! ## Bearer-token auth (`_auth_map`, `_authenticate_request`, `_sender_id`) -/

/-- The relevant part of `OpenAIAPIConfig`: `apiKeys` (token to principal) and
the single `apiKey` shortcut (`none` or `some ""` are falsy). -/
structure APIConfigModel where
  apiKeys : List (String × String)
  apiKey : Option String
deriving DecidableEq, Repr

/-- `str.get` on a string-keyed association-list dict. -/
def lookupStr (k : String) (m : List (String × String)) : Option String :=
  (m.find? (fun e => e.1 = k)).map Prod.snd

/-- `OpenAIAPIChannel._auth_map` (openaiapi.py lines 245-250): the configured
`api_keys` mapping, with `api_key` added as principal `"api:default"` when it
is truthy and not already a key of the mapping. -/
def authMap (cfg : APIConfigModel) : List (String × String) :=
  match cfg.apiKey with
  | none => cfg.apiKeys
  | some k =>
    if k ≠ "" ∧ lookupStr k cfg.apiKeys = none then cfg.apiKeys ++ [(k, "api:default")]
    else cfg.apiKeys

/-- `OpenAIAPIChannel._authenticate_request` (openaiapi.py lines 252-266),
over the request's `authorization` header (`none` = absent, read as `""`):
500 if no credential is configured, 401 without a `Bearer ` prefix, 401 for a
token mapped to nothing (or to a falsy principal), otherwise the principal. -/
def authenticateRequest (cfg : APIConfigModel) (authHeader : Option String) :
    Except (Nat × String) String :=
  let m := authMap cfg
  if m = [] then .error (500, "openaiapi auth is not configured")
  else
    let auth := authHeader.getD ""
    if ¬ pyStartsWith auth "Bearer " then .error (401, "missing bearer token")
    else
      let token := pyStrip (String.mk (auth.data.drop 7))
      match lookupStr token m with
      | none => .error (401, "invalid api key")
      | some principal =>
        if principal = "" then .error (401, "invalid api key") else .ok principal

/-- `OpenAIAPIChannel._sender_id` (openaiapi.py lines 357-363): the stripped
middleware-stored principal if non-blank, else a 401. -/
def senderId (principal : String) : Except (Nat × String) String :=
  if pyStrip principal ≠ "" then .ok (pyStrip principal)
  else .error (401, "unauthenticated request")

/-! ## The `POST /v1/chat/completions` handler -/

/-- The `messages` value of the request payload: absent, present but not a
list (`isinstance(messages, list)` fails), or a list of raw messages. -/
inductive MessagesField
  | absent
  | notAList
  | list (msgs : List RawMsg)
deriving DecidableEq, Repr

/-- The request payload fields that steer the handler.  `_chat_id` derives the
chat key from `user`/conversation fields/headers/client host; none of those
can fail or touch shared state, so the derived key enters the model as the
opaque `chatId` argument of `chatCompletions` instead. -/
structure CCPayload where
  stream : Bool
  messages : MessagesField
deriving DecidableEq, Repr

/-- What the handler hands back to the HTTP layer. -/
inductive CCResponse
  | httpError (status : Nat) (detail : String)
  | completion (resp : ChatCompletionResponse)
  | streamOk (chunks : List Chunk)
  | streamTimeout (completionId : String)
deriving DecidableEq, Repr

/-- Observable side effects of a request on the shared state, in order:
the correlation registration (`self._pending[request_id] = fut`) and the bus
publication via `_handle_message` (which publishes one inbound message). -/
inductive Effect
  | registered (requestId : String)
  | published (senderId chatId prompt : String) (history : List NormMsg)
deriving DecidableEq, Repr

/-- Result of one full `chat_completions` exchange: the rendered response, the
side effects in order, and the pending table as left just after the
registration point (unchanged if the request never registered). -/
structure CCResult where
  response : CCResponse
  effects : List Effect
  tableAfterRegister : PendingTable
deriving DecidableEq, Repr

/-- `chat_completions` (openaiapi.py lines 113-243) together with its
middleware (lines 85-93), as one exchange.  Environment arguments model the
nondeterministic inputs: `requestId` the fresh `uuid4` hex, `chatId` the
`_chat_id` derivation, `completionId` and `now` the response framing, and
`agentReply` the awaited outcome (`some r` = the future resolved with `r`
before the deadline, `none` = `asyncio.TimeoutError`).  The middleware
rejection, the 400 validations and the 403 allow-list check all return before
the registration at line 139 and the publication at line 141. -/
def chatCompletions (cfg : APIConfigModel) (authHeader : Option String)
    (payload : CCPayload) (allow : String → Bool) (requestId chatId completionId : String)
    (now : Nat) (agentReply : Option String) (tbl : PendingTable) : CCResult :=
  match authenticateRequest cfg authHeader with
  | .error e => ⟨.httpError e.1 e.2, [], tbl⟩
  | .ok principal =>
    match payload.messages with
    | .absent => ⟨.httpError 400 "messages must be a non-empty array", [], tbl⟩
    | .notAList => ⟨.httpError 400 "messages must be a non-empty array", [], tbl⟩
    | .list msgs =>
      if msgs = [] then ⟨.httpError 400 "messages must be a non-empty array", [], tbl⟩
      else
        let hp := normalizeMessagesForAgent msgs
        if hp.2 = "" then
          ⟨.httpError 400 "could not extract text prompt from messages", [], tbl⟩
        else
          match senderId principal with
          | .error e => ⟨.httpError e.1 e.2, [], tbl⟩
          | .ok sid =>
            if ¬ allow sid then ⟨.httpError 403 "sender not allowed", [], tbl⟩
            else
              let tbl1 := insertPending requestId tbl
              let effs := [Effect.registered requestId,
                           Effect.published sid chatId hp.2 hp.1]
              match agentReply with
              | none =>
                if payload.stream then ⟨.streamTimeout completionId, effs, tbl1⟩
                else ⟨.httpError 504 "agent response timeout", effs, tbl1⟩
              | some r =>
                if payload.stream then
                  ⟨.streamOk (eventStreamChunks completionId now r), effs, tbl1⟩
                else ⟨.completion (nonStreamingResponse completionId now r), effs, tbl1⟩

/-! ## WebSocket endpoint (`webui.py websocket_endpoint`) -/

/-- The relevant part of `WebUIConfig`: login credentials, with `""` as the
falsy absent value. -/
structure WebUIConfigModel where
  username : String
  password : String
deriving DecidableEq, Repr

/-- `WebUIChannel._auth_enabled` (webui.py lines 114-115). -/
def authEnabled (cfg : WebUIConfigModel) : Bool :=
  cfg.username ≠ "" && cfg.password ≠ ""

/-- `WebUIChannel._check_token` (webui.py lines 117-120) applied to the
endpoint's `token` query parameter (default `""`; `token or None` turns `""`
into `None`, which fails the check when auth is enabled). -/
def checkToken (cfg : WebUIConfigModel) (tokens : List String) (token : String) : Bool :=
  !(authEnabled cfg) || (token ≠ "" && token ∈ tokens)

/-- Result of the WebSocket handshake portion of `websocket_endpoint`
(webui.py lines 163-180): either a close before `accept` (policy-violation
code 1008) or acceptance with the connection registered. -/
structure WsHandshakeResult where
  closeCode : Option Nat
  accepted : Bool
  conns : ConnMap
  effects : List Effect
deriving DecidableEq, Repr

/-- The handshake of `websocket_endpoint`: derive `sender_id` from the client
host, run the allow-list check then the token check, closing with code 1008
on failure; on success `accept` and register the socket.  No bus effect can
occur before acceptance (the receive loop is the only publisher). -/
def wsHandshake (cfg : WebUIConfigModel) (tokens : List String) (allow : String → Bool)
    (clientHost chatId token : String) (ws : Nat) (m : ConnMap) : WsHandshakeResult :=
  let sid := "web:" ++ clientHost
  if ¬ allow sid then ⟨some 1008, false, m, []⟩
  else if ¬ checkToken cfg tokens token then ⟨some 1008, false, m, []⟩
  else ⟨none, true, acceptConn chatId ws m, []⟩

/-! ## Inbound WebSocket frames (webui.py lines 182-201) -/

/-- A JSON value, as decoded by `json.loads`. -/
inductive JVal
  | null
  | bool (b : Bool)
  | num (n : Int)
  | str (s : String)
  | arr (items : List JVal)
  | obj (fields : List (String × JVal))

/-- `data.get(k)` on a decoded JSON object. -/
def lookupField (k : String) (fields : List (String × JVal)) : Option JVal :=
  (fields.find? (fun e => e.1 = k)).map Prod.snd

/-- A single quote character, for Python `repr` of strings. -/
def pyQuote (s : String) : String :=
  let q := String.singleton (Char.ofNat 39)
  q ++ s ++ q

mutual

/-- Model of Python `repr()` on a JSON-decoded value (string escaping inside
`repr` of strings is not modeled). -/
def pyRepr : JVal → String
  | .null => "None"
  | .bool true => "True"
  | .bool false => "False"
  | .num n => toString n
  | .str s => pyQuote s
  | .arr items => "[" ++ pyReprList items ++ "]"
  | .obj fields => "\x7b" ++ pyReprFields fields ++ "\x7d"

/-- Comma-separated `repr`s of list elements. -/
def pyReprList : List JVal → String
  | [] => ""
  | [x] => pyRepr x
  | x :: y :: xs => pyRepr x ++ ", " ++ pyReprList (y :: xs)

/-- Comma-separated `key: repr(value)` renderings of dict items. -/
def pyReprFields : List (String × JVal) → String
  | [] => ""
  | [e] => pyQuote e.1 ++ ": " ++ pyRepr e.2
  | e :: f :: xs => pyQuote e.1 ++ ": " ++ pyRepr e.2 ++ ", " ++ pyReprFields (f :: xs)

end

/-- Model of Python `str()` on a JSON-decoded value: strings pass through,
everything else renders as its `repr`. -/
def pyStr : JVal → String
  | .str s => s
  | v => pyRepr v

/-- What one loop iteration does with a decoded frame: dispatch to the bus,
silently ignore it (loop continues), or raise (ending the loop). -/
inductive FrameStep
  | dispatch (content : String) (media : List String)
  | ignore
  | crash (err : String)
deriving DecidableEq, Repr

/-- `[p for p in (data.get("media_paths") or []) if isinstance(p, str)]`:
an absent or falsy value gives `[]`; a list keeps its string elements;
iterating a string yields its one-character strings; iterating a dict yields
its keys; iterating a number or `True` raises `TypeError`. -/
def mediaPaths (fields : List (String × JVal)) : Except String (List String) :=
  match (lookupField "media_paths" fields).getD .null with
  | .null => .ok []
  | .bool false => .ok []
  | .bool true => .error "TypeError: bool object is not iterable"
  | .num n => if n = 0 then .ok [] else .error "TypeError: int object is not iterable"
  | .str s => .ok (s.data.map String.singleton)
  | .arr items => .ok (items.filterMap (fun x => match x with | .str s => some s | _ => none))
  | .obj fields2 => .ok (fields2.map Prod.fst)

/-- One iteration of the webui receive loop (webui.py lines 184-195), given
the decoded frame; `none` models `json.loads` raising on invalid JSON.  A
non-object JSON value raises `AttributeError` at `data.get`. -/
def processFrame (decoded : Option JVal) : FrameStep :=
  match decoded with
  | none => .crash "json.decoder.JSONDecodeError"
  | some (.obj fields) =>
    match lookupField "type" fields with
    | some (.str t) =>
      if t = "message" then
        let content := pyStrip (pyStr ((lookupField "content" fields).getD (.str "")))
        match mediaPaths fields with
        | .error e => .crash e
        | .ok media =>
          if content ≠ "" ∨ media ≠ [] then
            .dispatch (if content ≠ "" then content else "[file]") media
          else .ignore
      else .ignore
    | _ => .ignore
  | some _ => .crash "AttributeError: get"

/-- The connection-level consequence of one received frame
(webui.py lines 182-201): a raised exception is caught (or is the disconnect
itself), the `finally` block pops the registry entry and the handler returns,
so the connection does not stay open; otherwise the loop continues with the
registry untouched.  The boolean is `true` when the connection stays open. -/
def frameEffect (decoded : Option JVal) (chatId : String) (m : ConnMap) : ConnMap × Bool :=
  match processFrame decoded with
  | .crash _ => (popConn chatId m, false)
  | _ => (m, true)

/-! ## Web tools (`src/nanobot/agent/tools/web.py`) -/

/-- Hex digit (lowercase), for `\uXXXX` escapes. -/
def hexDigit (n : Nat) : Char :=
  if n < 10 then Char.ofNat (48 + n) else Char.ofNat (87 + n)

/-- Four-digit lowercase hex rendering of `n < 0x10000`. -/
def hex4 (n : Nat) : String :=
  String.mk [hexDigit (n / 4096 % 16), hexDigit (n / 256 % 16),
             hexDigit (n / 16 % 16), hexDigit (n % 16)]

/-- `json.dumps` escaping of one character with the default `ensure_ascii`:
the two-character escapes for quote, backslash and common controls, and
`\uXXXX` (with surrogate pairs above the BMP) for other controls and all
non-ASCII characters. -/
def jsonEscapeChar (c : Char) : String :=
  if c = Char.ofNat 34 then "\\\""
  else if c = Char.ofNat 92 then "\\\\"
  else if c = Char.ofNat 10 then "\\n"
  else if c = Char.ofNat 13 then "\\r"
  else if c = Char.ofNat 9 then "\\t"
  else if c.toNat = 8 then "\\b"
  else if c.toNat = 12 then "\\f"
  else if c.toNat < 32 ∨ 126 < c.toNat then
    if c.toNat ≤ 65535 then "\\u" ++ hex4 c.toNat
    else
      let n2 := c.toNat - 65536
      "\\u" ++ hex4 (55296 + n2 / 1024) ++ "\\u" ++ hex4 (56320 + n2 % 1024)
  else String.singleton c

/-- `json.dumps` of a Python string. -/
def jsonDumpStr (s : String) : String :=
  "\"" ++ String.join (s.data.map jsonEscapeChar) ++ "\""

mutual

/-- `json.dumps` with its default separators (`", "` and `": "`) and default
`ensure_ascii`. -/
def jsonDumps : JVal → String
  | .null => "null"
  | .bool true => "true"
  | .bool false => "false"
  | .num n => toString n
  | .str s => jsonDumpStr s
  | .arr items => "[" ++ jsonDumpsList items ++ "]"
  | .obj fields => "\x7b" ++ jsonDumpsFields fields ++ "\x7d"

/-- Comma-separated `json.dumps` of array elements. -/
def jsonDumpsList : List JVal → String
  | [] => ""
  | [x] => jsonDumps x
  | x :: y :: xs => jsonDumps x ++ ", " ++ jsonDumpsList (y :: xs)

/-- Comma-separated `"key": value` renderings of object items. -/
def jsonDumpsFields : List (String × JVal) → String
  | [] => ""
  | [e] => jsonDumpStr e.1 ++ ": " ++ jsonDumps e.2
  | e :: f :: xs => jsonDumpStr e.1 ++ ": " ++ jsonDumps e.2 ++ ", " ++ jsonDumpsFields (f :: xs)

end

/-- The scheme and netloc components of `urllib.parse.urlparse`. -/
structure ParsedURL where
  scheme : String
  netloc : String
deriving DecidableEq, Repr

/-- A character allowed after the first one in a URL scheme. -/
def isSchemeChar (c : Char) : Bool :=
  c.isAlphanum || c = Char.ofNat 43 || c = Char.ofNat 45 || c = Char.ofNat 46

/-- Model of the scheme split of `urlparse`: a leading alphabetic character
followed by scheme characters up to a colon. -/
def splitScheme (cs : List Char) : Option (List Char × List Char) :=
  match cs with
  | [] => none
  | c :: _ =>
    if c.isAlpha then
      let pre := cs.takeWhile isSchemeChar
      match cs.drop pre.length with
      | ':' :: tail => some (pre, tail)
      | _ => none
    else none

/-- Model of the netloc split of `urlparse`: present only after a leading
`//`, up to the next `/`, `?` or `#`. -/
def takeNetloc (cs : List Char) : List Char :=
  match cs with
  | '/' :: '/' :: rest => rest.takeWhile (fun c => c ≠ '/' && c ≠ '?' && c ≠ '#')
  | _ => []

/-- Model of `urllib.parse.urlparse` restricted to the two components the
source reads (`scheme`, lowercased, and `netloc`). -/
def parseURL (url : String) : ParsedURL :=
  match splitScheme url.data with
  | some pr => ⟨pyLower (String.mk pr.1), String.mk (takeNetloc pr.2)⟩
  | none => ⟨"", String.mk (takeNetloc url.data)⟩

/-- Model of `urlparse(url).hostname`: the netloc with userinfo (up to the
last `@`) removed; a bracketed IPv6 host keeps the inside of the brackets;
otherwise the port (from the first `:`) is dropped; lowercased. -/
def urlHostname (url : String) : String :=
  let netloc := (parseURL url).netloc
  let hostinfo := (netloc.data.reverse.takeWhile (fun c => c ≠ '@')).reverse
  let host :=
    match hostinfo with
    | '[' :: rest => rest.takeWhile (fun c => c ≠ ']')
    | _ => hostinfo.takeWhile (fun c => c ≠ ':')
  pyLower (String.mk host)

/-- `_validate_url` (web.py lines 50-60): http(s) scheme and a non-empty
netloc.  Nothing in the body can raise, so the `except` arm is dead. -/
def validateUrl (url : String) : Bool × String :=
  let p := parseURL url
  if p.scheme ≠ "http" ∧ p.scheme ≠ "https" then
    (false, "Only http/https allowed, got " ++ pyQuote (if p.scheme = "" then "none" else p.scheme))
  else if p.netloc = "" then (false, "Missing domain")
  else (true, "")

/-- An IPv4 address as four octets. -/
structure IPv4 where
  a : Nat
  b : Nat
  c : Nat
  d : Nat
deriving DecidableEq, Repr

/-- One dotted-quad octet: decimal, at most 255, no leading zeros. -/
def parseOctet (s : String) : Option Nat :=
  if 1 < s.length ∧ s.data.head? = some '0' then none
  else
    match parseNatChars s.data with
    | some n => if n ≤ 255 then some n else none
    | none => none

/-- Model of `ipaddress.ip_address` restricted to IPv4 dotted-quad literals;
anything else (including IPv6 literals) raises `ValueError`, modeled as
`none` (which sends `_validate_public_target` to its DNS branch, as the
source `except ValueError: pass` does). -/
def parseIPv4 (s : String) : Option IPv4 :=
  match (splitOnChar '.' s.data).map String.mk with
  | [a, b, c, d] =>
    match parseOctet a, parseOctet b, parseOctet c, parseOctet d with
    | some x, some y, some z, some w => some ⟨x, y, z, w⟩
    | _, _, _, _ => none
  | _ => none

/-- The 32-bit value of an IPv4 address. -/
def IPv4.value (ip : IPv4) : Nat :=
  ((ip.a * 256 + ip.b) * 256 + ip.c) * 256 + ip.d

/-- 32-bit network base from four octets. -/
def netBase (a b c d : Nat) : Nat := ((a * 256 + b) * 256 + c) * 256 + d

/-- Membership of an address in a `base/bits` network. -/
def inNet (ip : IPv4) (base bits : Nat) : Bool :=
  ip.value / 2 ^ (32 - bits) = base / 2 ^ (32 - bits)

/-- Model of the CPython `IPv4Address.is_private` network list. -/
def IPv4.isPrivate (ip : IPv4) : Bool :=
  inNet ip (netBase 0 0 0 0) 8 || inNet ip (netBase 10 0 0 0) 8 ||
  inNet ip (netBase 127 0 0 0) 8 || inNet ip (netBase 169 254 0 0) 16 ||
  inNet ip (netBase 172 16 0 0) 12 || inNet ip (netBase 192 0 0 0) 29 ||
  inNet ip (netBase 192 0 0 170) 31 || inNet ip (netBase 192 0 2 0) 24 ||
  inNet ip (netBase 192 168 0 0) 16 || inNet ip (netBase 198 18 0 0) 15 ||
  inNet ip (netBase 198 51 100 0) 24 || inNet ip (netBase 203 0 113 0) 24 ||
  inNet ip (netBase 240 0 0 0) 4 || inNet ip (netBase 255 255 255 255) 32

/-- `IPv4Address.is_loopback`. -/
def IPv4.isLoopback (ip : IPv4) : Bool := inNet ip (netBase 127 0 0 0) 8

/-- `IPv4Address.is_link_local`. -/
def IPv4.isLinkLocal (ip : IPv4) : Bool := inNet ip (netBase 169 254 0 0) 16

/-- `IPv4Address.is_multicast`. -/
def IPv4.isMulticast (ip : IPv4) : Bool := inNet ip (netBase 224 0 0 0) 4

/-- `IPv4Address.is_reserved`. -/
def IPv4.isReserved (ip : IPv4) : Bool := inNet ip (netBase 240 0 0 0) 4

/-- `IPv4Address.is_unspecified`. -/
def IPv4.isUnspecified (ip : IPv4) : Bool := ip.value = 0

/-- `_is_private_or_local_ip` (web.py lines 63-71). -/
def isPrivateOrLocalIp (ip : IPv4) : Bool :=
  ip.isPrivate || ip.isLoopback || ip.isLinkLocal || ip.isMulticast ||
  ip.isReserved || ip.isUnspecified

/-- `str()` of an IPv4 address. -/
def IPv4.render (ip : IPv4) : String :=
  toString ip.a ++ "." ++ toString ip.b ++ "." ++ toString ip.c ++ "." ++ toString ip.d

/-- The blocked-hostname test of `_validate_public_target` (web.py lines
81-83). -/
def blockedHostname (h : String) : Bool :=
  h = "localhost" || h = "localhost.localdomain" ||
  pyEndsWith h ".localhost" || pyEndsWith h ".local" || pyEndsWith h ".internal"

/-- `_validate_public_target` (web.py lines 74-106), with DNS
(`socket.getaddrinfo`) supplied as an environment function: `.error ()`
models `gaierror` (ignored, deferred to the request path), `.ok ips` the
resolved addresses (the model resolves to IPv4 addresses). -/
def validatePublicTarget (dns : String → Except Unit (List IPv4)) (url : String) :
    Bool × String :=
  let hostname := pyLower (pyStrip (urlHostname url))
  if hostname = "" then (false, "Missing domain")
  else if blockedHostname hostname then (false, "Blocked local hostname: " ++ hostname)
  else
    match parseIPv4 hostname with
    | some addr =>
      if isPrivateOrLocalIp addr then (false, "Blocked private IP: " ++ hostname)
      else (true, "")
    | none =>
      match dns hostname with
      | .error _ => (true, "")
      | .ok ips =>
        match ips.find? isPrivateOrLocalIp with
        | some bad =>
          (false, "Blocked private DNS target: " ++ hostname ++ " -> " ++ bad.render)
        | none => (true, "")

/-- One HTTP response as `_safe_get` reads it: status, the `location` header
if present, the `content-type` header, the body text, and `str(r.url)`. -/
structure HttpResp where
  status : Nat
  location : Option String
  contentType : String
  text : String
  url : String
deriving DecidableEq, Repr

/-- `MAX_REDIRECTS` (web.py line 20). -/
def MAX_REDIRECTS : Nat := 5

/-- The redirect test of `_safe_get` (web.py line 352). -/
def isRedirect (r : HttpResp) : Bool :=
  (r.status = 301 || r.status = 302 || r.status = 303 || r.status = 307 || r.status = 308)
  && r.location.isSome

/-- `r.raise_for_status()`: a 4xx/5xx response raises `httpx.HTTPStatusError`
(its message modeled by the status code). -/
def raiseForStatus (r : HttpResp) : Except String HttpResp :=
  if 400 ≤ r.status then .error ("HTTP status error " ++ toString r.status) else .ok r

/-- Model of `urllib.parse.urljoin` for the cases a `Location` header
produces: an absolute URL replaces the base; a scheme-relative `//...`
reference inherits the base scheme; other references are resolved against the
base authority (dot-segment normalization is not modeled). -/
def urljoinModel (base loc : String) : String :=
  if (splitScheme loc.data).isSome then loc
  else if pyStartsWith loc "//" then (parseURL base).scheme ++ ":" ++ loc
  else
    let p := parseURL base
    let root := p.scheme ++ "://" ++ p.netloc
    if pyStartsWith loc "/" then root ++ loc else root ++ "/" ++ loc

/-- `WebFetchTool._safe_get` (web.py lines 338-359): up to `MAX_REDIRECTS + 1`
rounds of SSRF check (raising `ValueError(error_msg)` on failure), GET
(modeled by `net`; `.error` is any raised transport exception), redirect
following, and `raise_for_status`; falling off the loop raises the
too-many-redirects `ValueError`. -/
def safeGetLoop (dns : String → Except Unit (List IPv4))
    (net : String → Except String HttpResp) :
    Nat → String → Except String HttpResp
  | 0, _ => .error ("Too many redirects (>" ++ toString MAX_REDIRECTS ++ ")")
  | fuel + 1, currentUrl =>
    let v := validatePublicTarget dns currentUrl
    if ¬ v.1 then .error v.2
    else
      match net currentUrl with
      | .error e => .error e
      | .ok r =>
        if isRedirect r then safeGetLoop dns net fuel (urljoinModel r.url (r.location.getD ""))
        else raiseForStatus r

/-- `_safe_get` entry point. -/
def safeGet (dns : String → Except Unit (List IPv4))
    (net : String → Except String HttpResp) (url : String) : Except String HttpResp :=
  safeGetLoop dns net (MAX_REDIRECTS + 1) url

/-- Outcome of the content-type dispatch and extraction block of
`WebFetchTool.execute` (web.py lines 457-506).  The readability / regex
text-extraction heuristics are declared an opaque `execute(args) -> text`
capability by the specification, so they enter the model as one environment
function producing these fields (`links` empty outside the HTML branch). -/
structure ProcessedPage where
  text : String
  extractor : String
  title : String
  h1 : String
  h2 : String
  h3 : String
  links : List (String × String)
deriving DecidableEq, Repr

/-- Python `s[a:b]` on character indices (non-negative bounds). -/
def pySlice (s : String) (a b : Nat) : String :=
  String.mk ((s.data.drop a).take (b - a))

/-- Python `s[a:]` on character indices (non-negative index). -/
def pyDrop (s : String) (a : Nat) : String := String.mk (s.data.drop a)

/-- Python `s[:b]` on character indices (non-negative bound). -/
def pyTake (s : String) (b : Nat) : String := String.mk (s.data.take b)

/-- Character index of the first occurrence of `needle` in the list. -/
def findSubChars (needle : List Char) : List Char → Option Nat
  | [] => if needle = [] then some 0 else none
  | c :: rest =>
    if isPrefixChars needle (c :: rest) then some 0
    else (findSubChars needle rest).map (· + 1)

/-- Python `hay.find(needle)`: character index of the first occurrence, `-1`
if absent. -/
def pyFind (hay needle : String) : Int :=
  if needle = "" then 0
  else
    match findSubChars needle.data hay.data with
    | some n => (n : Int)
    | none => -1

/-- Lexicographic order on snippet intervals, as Python sorts int pairs. -/
def pairLe (x y : Int × Int) : Bool :=
  x.1 < y.1 || (x.1 = y.1 && x.2 ≤ y.2)

/-- Insertion into a `pairLe`-sorted list. -/
def insertSorted (x : Int × Int) : List (Int × Int) → List (Int × Int)
  | [] => [x]
  | y :: ys => if pairLe x y then x :: y :: ys else y :: insertSorted x ys

/-- `snippets.sort()` on int pairs. -/
def sortPairs (l : List (Int × Int)) : List (Int × Int) :=
  l.foldr insertSorted []

/-- `WebFetchTool._extract_term_snippets` (web.py lines 399-430). -/
def extractTermSnippets (content : String) (terms : List String) (maxChars : Int) : String :=
  if terms = [] || maxChars ≤ 0 || (content.length : Int) ≤ maxChars then
    if 0 < maxChars then pyTake content maxChars.toNat else content
  else
    let pad : Int := max 30 (maxChars / max 2 ((terms.length : Int) * 2))
    let snippets := terms.filterMap (fun term =>
      let t := pyStrip term
      if t = "" then none
      else
        let idx := pyFind (pyLower content) (pyLower t)
        if 0 ≤ idx then
          some (max 0 (idx - pad), min (content.length : Int) (idx + (t.length : Int) + pad))
        else none)
    if snippets = [] then pyTake content maxChars.toNat
    else
      let sorted := sortPairs snippets
      let merged := sorted.foldl (fun acc se =>
        match acc with
        | [] => [se]
        | last :: rest =>
          if se.1 ≤ last.2 then (last.1, max last.2 se.2) :: rest
          else se :: last :: rest) []
      let out := joinWith " ... "
        (merged.reverse.map (fun se => pySlice content se.1.toNat se.2.toNat))
      pyTake out maxChars.toNat

/-- The environment of one `WebFetchTool.execute` call: DNS resolution, the
network, and the opaque extraction block. -/
structure FetchEnv where
  dns : String → Except Unit (List IPv4)
  net : String → Except String HttpResp
  process : HttpResp → Except String ProcessedPage

/-- The JSON error object `json.dumps({"error": ..., "url": ...})`
(web.py lines 449, 452 and 540). -/
def fetchErrorJson (err url : String) : String :=
  jsonDumps (.obj [("error", .str err), ("url", .str url)])

/-- The success payload of `WebFetchTool.execute` (web.py lines 522-538). -/
def fetchPayloadJson (url : String) (r : HttpResp) (page : ProcessedPage)
    (text : String) (truncated : Bool) : String :=
  let base : List (String × JVal) :=
    [("url", .str url), ("finalUrl", .str r.url), ("status", .num (r.status : Int)),
     ("extractor", .str page.extractor), ("truncated", .bool truncated),
     ("length", .num (text.length : Int)), ("text", .str text), ("content", .str text),
     ("title", .str page.title), ("h1", .str page.h1), ("h2", .str page.h2),
     ("h3", .str page.h3)]
  jsonDumps (.obj (if page.links ≠ [] then
    base ++ [("links", .arr (page.links.map (fun e => .arr [.str e.1, .str e.2])))]
  else base))

/-- `WebFetchTool.execute` (web.py lines 432-540).  `defaultMaxChars` is
`self.max_chars`; `maxChars` is the `maxChars` argument (`maxChars or
self.max_chars` makes `0` fall back to the default).  `extractMode` and
`maxLinks` only steer the extraction block abstracted by `env.process`.
Validation failures return before any network access; every exception raised
inside the try block is rendered as the `{"error", "url"}` object. -/
def webFetchExecute (defaultMaxChars : Int) (env : FetchEnv) (url : String)
    (maxChars : Option Int) (findInPage : Option (List String)) (startIndex : Int) : String :=
  let maxC := match maxChars with
    | some m => if m = 0 then defaultMaxChars else m
    | none => defaultMaxChars
  let v1 := validateUrl url
  if ¬ v1.1 then fetchErrorJson ("URL validation failed: " ++ v1.2) url
  else
    let v2 := validatePublicTarget env.dns url
    if ¬ v2.1 then fetchErrorJson ("URL blocked: " ++ v2.2) url
    else
      match (safeGet env.dns env.net url).bind
          (fun r => (env.process r).map (fun p => (r, p))) with
      | .error e => fetchErrorJson e url
      | .ok rp =>
        let sourceText := rp.2.text
        match findInPage with
        | some (t :: ts) =>
          let text := extractTermSnippets sourceText (t :: ts) maxC
          let truncated := 0 < maxC && text.length < sourceText.length
          fetchPayloadJson url rp.1 rp.2 text truncated
        | _ =>
          let start := (max startIndex 0).toNat
          if 0 < maxC then
            let stop := start + maxC.toNat
            fetchPayloadJson url rp.1 rp.2 (pySlice sourceText start stop)
              (decide (stop < sourceText.length))
          else
            fetchPayloadJson url rp.1 rp.2 (pyDrop sourceText start) false

/-- One web-search result (`{"title", "url", "description"}` dict). -/
structure SearchResult where
  title : String
  url : String
  description : String
deriving DecidableEq, Repr

/-- The result-list rendering of `WebSearchTool.execute` (web.py lines
290-295): a header line, then numbered title/url lines with an optional
description line, joined by newlines. -/
def renderSearchResults (query : String) (results : List SearchResult) (n : Nat) : String :=
  let lines := ["Results for: " ++ query ++ "\n"] ++
    ((results.take n).enum.flatMap (fun ie =>
      [toString (ie.1 + 1) ++ ". " ++ ie.2.title ++ "\n   " ++ ie.2.url] ++
      (if ie.2.description ≠ "" then ["   " ++ ie.2.description] else [])))
  joinWith "\n" lines

/-- `WebSearchTool.execute` (web.py lines 243-310).  `maxResults` is
`self.max_results`; `count or self.max_results` makes `0` fall back to the
default.  `net` models the DuckDuckGo GET plus `raise_for_status` (`.error`
is any raised exception) and `extract` the opaque `_extract_results_regex`
heuristics, bounded by `n`.  The search-log writes are I/O that swallows its
own exceptions and does not affect the result.  Every exception raised in the
try block is caught and rendered as `"Error: ..."`. -/
def webSearchExecute (maxResults : Int) (query : String) (count : Option Int)
    (net : Except String String) (extract : String → Nat → List SearchResult) : String :=
  let c : Int := match count with
    | some k => if k = 0 then maxResults else k
    | none => maxResults
  let n : Int := min (max c 1) 10
  match net with
  | .error e => "Error: " ++ e
  | .ok body =>
    let results := extract body n.toNat
    if results = [] then "No results for: " ++ query
    else renderSearchResults query results n.toNat

/-! ## Theorems -/

/-- A step wakes the waiter only from a pending future. -/
theorem step_wake_pending (a : Act) (st : Correlation) :
    (step a st).2 = true → st.fut = .pending := by
  cases st with
  | mk t f =>
    cases a <;> cases f <;> cases t <;>
      simp [step, resolveStep, timeoutCancelStep, timeoutPopStep, stopStep, FutState.done]

/-- A step never turns a non-pending future back into a pending one, and never
changes the value of a non-pending future: the observed outcome is stable. -/
theorem step_stable (a : Act) (st : Correlation) (h : st.fut ≠ .pending) :
    (step a st).1.fut = st.fut := by
  cases st with
  | mk t f =>
    cases a <;> cases f <;> cases t <;>
      simp_all [step, resolveStep, timeoutCancelStep, timeoutPopStep, stopStep, FutState.done]

/-- Outcome stability and no-second-wakeup along a whole run. -/
theorem run_stable (acts : List Act) (st : Correlation) (h : st.fut ≠ .pending) :
    (run acts st).1.fut = st.fut ∧ (run acts st).2 = 0 := by
  induction acts generalizing st with
  | nil => simp [run]
  | cons a as ih =>
    have hs := step_stable a st h
    have hw : (step a st).2 = false := by
      cases hwt : (step a st).2
      · rfl
      · exact absurd (step_wake_pending a st hwt) h
    have := ih (step a st).1 (by rw [hs]; exact h)
    simp [run, hw, this.1, this.2, hs]

/-- At most one wakeup along any run. -/
theorem run_wakes_le_one (acts : List Act) (st : Correlation) :
    (run acts st).2 ≤ 1 := by
  induction acts generalizing st with
  | nil => simp [run]
  | cons a as ih =>
    by_cases hw : (step a st).2 = true
    · have hp : (step a st).1.fut ≠ .pending := by
        have := step_wake_pending a st hw
        cases st with
        | mk t f =>
          cases a <;> cases f <;> cases t <;>
            simp_all [step, resolveStep, timeoutCancelStep, timeoutPopStep, stopStep,
              FutState.done]
      have := (run_stable as (step a st).1 hp).2
      simp [run, hw, this]
    · have hw2 : (step a st).2 = false := by simpa using hw
      simpa [run, hw2] using ih (step a st).1

/--
C1: for every request id registered in the correlation table, the waiting HTTP
caller observes exactly one outcome — the agent's reply content or a timeout —
never both and never neither; a resolution attempt for an id with no pending
entry is a safe no-op that never wakes a waiter a second time, the late
outbound message being dropped.  Formally: (i) `send` on an id without a table
entry changes nothing and wakes nobody; (ii) no interleaving of steps wakes the
waiter more than once; (iii) once the waiter has an outcome, no later step
changes it or wakes it again; (iv) in every interleaving of a bus resolution
with the timeout pair (future cancellation, then table pop), started from a
freshly registered entry, the waiter wakes exactly once, the final outcome is
the reply or the timeout, and the table entry is gone.
-/
theorem c1_correlation_exactly_one_outcome (c : String) (acts : List Act) (st : Correlation) :
    (st.inTable = false → resolveStep c st = (st, false)) ∧
    (run acts Correlation.registered).2 ≤ 1 ∧
    (st.fut ≠ .pending → (run acts st).1.fut = st.fut ∧ (run acts st).2 = 0) ∧
    (∀ tr ∈ [[Act.resolve c, Act.timeoutFire, Act.timeoutPop],
             [Act.timeoutFire, Act.resolve c, Act.timeoutPop],
             [Act.timeoutFire, Act.timeoutPop, Act.resolve c]],
       (run tr Correlation.registered).2 = 1 ∧
       ((run tr Correlation.registered).1.fut = .resolved c ∨
        (run tr Correlation.registered).1.fut = .cancelled) ∧
       (run tr Correlation.registered).1.inTable = false) := by
  refine ⟨?_, run_wakes_le_one acts _, run_stable acts st, ?_⟩
  · intro h
    simp [resolveStep, h]
  · intro tr htr
    simp only [List.mem_cons, List.not_mem_nil, or_false] at htr
    rcases htr with h | h | h <;> subst h <;>
      simp [run, step, resolveStep, timeoutCancelStep, timeoutPopStep,
        Correlation.registered, FutState.done]

/-- Witness for `c1_correlation_exactly_one_outcome` at concrete inputs. -/
theorem c1_correlation_exactly_one_outcome_witness :
    (resolveStep "hello" ⟨false, .cancelled⟩ = (⟨false, .cancelled⟩, false)) ∧
    ((run [Act.resolve "hello"] ⟨false, .cancelled⟩).1.fut = .cancelled ∧
      (run [Act.resolve "hello"] ⟨false, .cancelled⟩).2 = 0) ∧
    ((run [Act.timeoutFire, Act.resolve "hello", Act.timeoutPop] Correlation.registered).2 = 1 ∧
      ((run [Act.timeoutFire, Act.resolve "hello", Act.timeoutPop]
          Correlation.registered).1.fut = .resolved "hello" ∨
       (run [Act.timeoutFire, Act.resolve "hello", Act.timeoutPop]
          Correlation.registered).1.fut = .cancelled) ∧
      (run [Act.timeoutFire, Act.resolve "hello", Act.timeoutPop]
          Correlation.registered).1.inTable = false) :=
  ⟨(c1_correlation_exactly_one_outcome "hello" [] ⟨false, .cancelled⟩).1 (by decide),
   (c1_correlation_exactly_one_outcome "hello" [Act.resolve "hello"]
      ⟨false, .cancelled⟩).2.2.1 (by decide),
   (c1_correlation_exactly_one_outcome "hello" [] ⟨false, .cancelled⟩).2.2.2
      [Act.timeoutFire, Act.resolve "hello", Act.timeoutPop] (by decide)⟩

/-- The keys left by an eviction are the original keys minus the evicted one. -/
theorem keys_popConn (key : String) (m : ConnMap) :
    (popConn key m).map Prod.fst = (m.map Prod.fst).filter (fun k => k ≠ key) := by
  induction m with
  | nil => rfl
  | cons e rest ih =>
    by_cases h : e.1 = key
    · simpa [popConn, List.filter_cons, h] using ih
    · simpa [popConn, List.filter_cons, h] using ih

/-- `send` when the key has a registered handle: exactly one write attempt. -/
theorem webuiSend_attempts_of_lookup (fails : Nat → Bool) (k c : String) (m : ConnMap)
    (h : Nat) (hl : lookupConn k m = some h) :
    (webuiSend fails k c m).attempts = [(h, c)] := by
  unfold webuiSend
  rw [hl]
  by_cases hf : fails h <;> simp [hf]

/-- `send` when the key has a registered handle: the registry afterwards. -/
theorem webuiSend_conns_of_lookup (fails : Nat → Bool) (k c : String) (m : ConnMap)
    (h : Nat) (hl : lookupConn k m = some h) :
    (webuiSend fails k c m).conns = (if fails h then popConn k m else m) := by
  unfold webuiSend
  rw [hl]
  by_cases hf : fails h <;> simp [hf]

/-- `send` when the key has no registered handle: a pure no-op returning None. -/
theorem webuiSend_of_lookup_none (fails : Nat → Bool) (k c : String) (m : ConnMap)
    (hl : lookupConn k m = none) :
    webuiSend fails k c m = ⟨m, [], none⟩ := by
  unfold webuiSend
  rw [hl]

/-- Eviction preserves the one-entry-per-key dict invariant. -/
theorem keysNodup_popConn (key : String) (m : ConnMap) (hm : keysNodup m) :
    keysNodup (popConn key m) := by
  unfold keysNodup
  rw [keys_popConn]
  exact hm.filter _

/-- Dict assignment preserves the one-entry-per-key dict invariant. -/
theorem keysNodup_acceptConn (key : String) (h : Nat) (m : ConnMap) (hm : keysNodup m) :
    keysNodup (acceptConn key h m) := by
  unfold keysNodup acceptConn
  rw [List.map_append, keys_popConn]
  refine List.Nodup.append (hm.filter _) (List.nodup_singleton key) ?_
  intro x hx hmem
  rcases List.mem_singleton.mp hmem
  simp [List.mem_filter] at hx

/-- After a dict assignment, lookup of the key yields the new handle. -/
theorem lookupConn_acceptConn_self (key : String) (h : Nat) (m : ConnMap) :
    lookupConn key (acceptConn key h m) = some h := by
  induction m with
  | nil => simp [lookupConn, acceptConn, popConn]
  | cons e rest ih =>
    by_cases hek : e.1 = key <;>
      simp [lookupConn, acceptConn, popConn, List.filter_cons, List.find?, hek]

/--
C4: the connection registry holds at most one WebSocket handle per sessionKey
at every instant (dict assignment and eviction preserve key distinctness); a
second accepted connection for an already-registered key unconditionally
supersedes the first, so that lookup yields the second handle and a push
addressed to the key attempts a write only on the second (currently
registered) handle, never on the first; in general every attempted write
targets exactly the currently-registered handle for the key.
-/
theorem c4_connection_replacement (m : ConnMap) (key : String) (h1 h2 : Nat)
    (fails : Nat → Bool) (content : String) (hm : keysNodup m) (hne : h1 ≠ h2) :
    keysNodup (acceptConn key h1 m) ∧
    keysNodup (acceptConn key h2 (acceptConn key h1 m)) ∧
    keysNodup (popConn key m) ∧
    lookupConn key (acceptConn key h2 (acceptConn key h1 m)) = some h2 ∧
    (webuiSend fails key content (acceptConn key h2 (acceptConn key h1 m))).attempts
      = [(h2, content)] ∧
    (h1, content) ∉
      (webuiSend fails key content (acceptConn key h2 (acceptConn key h1 m))).attempts ∧
    (∀ k c, ∀ a ∈ (webuiSend fails k c m).attempts, lookupConn k m = some a.1) := by
  have hself := lookupConn_acceptConn_self key h2 (acceptConn key h1 m)
  have hatt := webuiSend_attempts_of_lookup fails key content _ h2 hself
  refine ⟨keysNodup_acceptConn key h1 m hm,
    keysNodup_acceptConn key h2 _ (keysNodup_acceptConn key h1 m hm),
    keysNodup_popConn key m hm, hself, hatt, ?_, ?_⟩
  · rw [hatt]
    simp [hne]
  · intro k c a ha
    cases hl : lookupConn k m with
    | none =>
      rw [webuiSend_of_lookup_none fails k c m hl] at ha
      simp at ha
    | some h =>
      rw [webuiSend_attempts_of_lookup fails k c m h hl] at ha
      simp only [List.mem_singleton] at ha
      simp [ha, hl]

/-- Witness for `c4_connection_replacement` at concrete inputs. -/
theorem c4_connection_replacement_witness :
    lookupConn "s" (acceptConn "s" 1 (acceptConn "s" 0 [])) = some 1 ∧
    (webuiSend (fun _ => false) "s" "hi" (acceptConn "s" 1 (acceptConn "s" 0 []))).attempts
      = [(1, "hi")] ∧
    (0, "hi") ∉
      (webuiSend (fun _ => false) "s" "hi" (acceptConn "s" 1 (acceptConn "s" 0 []))).attempts :=
  have h := c4_connection_replacement [] "s" 0 1 (fun _ => false) "hi"
    (by simp [keysNodup]) (by decide)
  ⟨h.2.2.2.1, h.2.2.2.2.1, h.2.2.2.2.2.1⟩

/--
C8 counterexample: the claim says `send(key, payload)` returns a boolean
reporting whether delivery succeeded.  `WebUIChannel.send` is annotated
`-> None` and returns `None` on every path: at the concrete failing input
below (registered socket whose write raises) the returned value is `None`,
not the boolean `false` the claim promises — and it is indistinguishable from
the returned value of a successful send.
-/
theorem c8_send_returns_none_counterexample :
    (webuiSend (fun _ => true) "chat" "hi" [("chat", 1)]).retval = none ∧
    (webuiSend (fun _ => true) "chat" "hi" [("chat", 1)]).retval ≠ some false ∧
    (webuiSend (fun _ => true) "chat" "hi" [("chat", 1)]).conns = [] ∧
    (webuiSend (fun _ => false) "chat" "hi" [("chat", 1)]).retval
      = (webuiSend (fun _ => true) "chat" "hi" [("chat", 1)]).retval := by
  decide

/--
C8 (amended): for every `send(key, payload)`, the current handle for the key
is looked up and at most one write is attempted against it; on a
transport-level failure while writing, the registry entry for the key is
evicted and the send is never retried; the operation returns `None` (delivery
success is not reported to the caller; failure is observable only through the
eviction).
-/
theorem c8_send_evicts_no_retry (fails : Nat → Bool) (chatId content : String) (m : ConnMap) :
    (webuiSend fails chatId content m).retval = none ∧
    (webuiSend fails chatId content m).attempts.length ≤ 1 ∧
    (∀ h, lookupConn chatId m = some h →
      (webuiSend fails chatId content m).attempts = [(h, content)] ∧
      (webuiSend fails chatId content m).conns
        = (if fails h then popConn chatId m else m)) ∧
    (lookupConn chatId m = none →
      webuiSend fails chatId content m = ⟨m, [], none⟩) := by
  refine ⟨?_, ?_, ?_, webuiSend_of_lookup_none fails chatId content m⟩
  · cases hl : lookupConn chatId m with
    | none => rw [webuiSend_of_lookup_none fails chatId content m hl]
    | some h =>
      unfold webuiSend
      rw [hl]
      by_cases hf : fails h <;> simp [hf]
  · cases hl : lookupConn chatId m with
    | none => rw [webuiSend_of_lookup_none fails chatId content m hl]; simp
    | some h => rw [webuiSend_attempts_of_lookup fails chatId content m h hl]; simp
  · intro h hl
    exact ⟨webuiSend_attempts_of_lookup fails chatId content m h hl,
      webuiSend_conns_of_lookup fails chatId content m h hl⟩

/-- Witness for `c8_send_evicts_no_retry` at concrete inputs. -/
theorem c8_send_evicts_no_retry_witness :
    (webuiSend (fun _ => true) "chat" "hi" [("chat", 1)]).attempts = [(1, "hi")] ∧
    (webuiSend (fun _ => true) "chat" "hi" [("chat", 1)]).conns
      = (if (fun _ => true) 1 then popConn "chat" [("chat", 1)] else [("chat", 1)]) ∧
    webuiSend (fun _ => true) "other" "hi" [("chat", 1)] = ⟨[("chat", 1)], [], none⟩ :=
  have ha := (c8_send_evicts_no_retry (fun _ => true) "chat" "hi" [("chat", 1)]).2.2.1
    1 (by decide)
  have hb := (c8_send_evicts_no_retry (fun _ => true) "other" "hi" [("chat", 1)]).2.2.2
    (by decide)
  ⟨ha.1, ha.2, hb⟩

/-- The stop loop empties the table once the snapshot covers every key. -/
theorem stopPendingLoop_nil (snap : List (String × FutState)) (table : PendingTable)
    (h : ∀ e ∈ table, e.1 ∈ snap.map Prod.fst) : stopPendingLoop snap table = [] := by
  induction snap generalizing table with
  | nil =>
    cases table with
    | nil => rfl
    | cons e rest => exact absurd (h e (List.mem_cons_self e rest)) (by simp)
  | cons s rest ih =>
    simp only [stopPendingLoop]
    apply ih
    intro e he
    rw [popTable, List.mem_filter] at he
    have h1 := h e he.1
    simp only [List.map_cons, List.mem_cons] at h1
    rcases h1 with h1 | h1
    · exact absurd h1 (by simpa using he.2)
    · exact h1

/-- `stop` leaves the pending table empty. -/
theorem stopPending_table_empty (tbl : PendingTable) : (stopPending tbl).1 = [] := by
  apply stopPendingLoop_nil
  intro e he
  exact List.mem_map_of_mem Prod.fst he

/--
C6: a single invocation of `stop` cancels every pending correlation waiter
(each future that was pending ends cancelled, so its awaiting request
completes with a cancellation/timeout-shaped error instead of blocking
forever; already-done futures are untouched), closes every registered
WebSocket handle, and leaves both the correlation table and the connection
registry empty, so that a subsequent `send` on either channel is a no-op —
no dangling send can occur afterward.
-/
theorem c6_shutdown_drains (tbl : PendingTable) (conns : ConnMap)
    (id c : String) (fails : Nat → Bool) :
    (stopPending tbl).1 = [] ∧
    (∀ e ∈ tbl, (e.1, if e.2.done then e.2 else FutState.cancelled) ∈ (stopPending tbl).2) ∧
    (∀ e ∈ tbl, e.2 = .pending → (e.1, FutState.cancelled) ∈ (stopPending tbl).2) ∧
    (stopWebui conns).1 = [] ∧
    (∀ e ∈ conns, e.2 ∈ (stopWebui conns).2) ∧
    sendTable id (stopPending tbl).1 = ((stopPending tbl).1, false) ∧
    webuiSend fails id c (stopWebui conns).1 = ⟨[], [], none⟩ := by
  have hempty := stopPending_table_empty tbl
  refine ⟨hempty, ?_, ?_, rfl, ?_, ?_, rfl⟩
  · intro e he
    exact List.mem_map_of_mem _ he
  · intro e he hp
    have hmem := List.mem_map_of_mem
      (fun e => (e.1, if e.2.done then e.2 else FutState.cancelled)) he
    simp only [hp, FutState.done] at hmem
    simpa [stopPending] using hmem
  · intro e he
    exact List.mem_map_of_mem Prod.snd he
  · rw [hempty]
    simp [sendTable, lookupTable]

/-- Witness for `c6_shutdown_drains` at concrete inputs. -/
theorem c6_shutdown_drains_witness :
    (stopPending [("a", FutState.pending)]).1 = [] ∧
    ("a", FutState.cancelled) ∈ (stopPending [("a", FutState.pending)]).2 ∧
    (7 : Nat) ∈ (stopWebui [("c", 7)]).2 :=
  have h := c6_shutdown_drains [("a", .pending)] [("c", 7)] "x" "y" (fun _ => false)
  ⟨h.1, h.2.2.1 ("a", .pending) (by decide) rfl, h.2.2.2.2.1 ("c", 7) (by decide)⟩

/-- The reversed scan finds the first reversed index with the `user` role. -/
theorem scanRevForUser_eq (r : List NormMsg) :
    scanRevForUser r = (findFirstIdx (fun m => m.role = "user") r).map
      (fun k => ((r.drop (k + 1)).reverse, ((r[k]?).map NormMsg.content).getD "")) := by
  induction r with
  | nil => rfl
  | cons m rest ih =>
    by_cases hu : m.role = "user"
    · simp [scanRevForUser, findFirstIdx, hu]
    · cases hfi : findFirstIdx (fun x => x.role = "user") rest with
      | none => simp [scanRevForUser, findFirstIdx, hu, hfi, ih]
      | some k => simp [scanRevForUser, findFirstIdx, hu, hfi, ih]

/-- A found index is within bounds. -/
theorem findFirstIdx_lt_length (p : NormMsg → Bool) (r : List NormMsg) (k : Nat)
    (h : findFirstIdx p r = some k) : k < r.length := by
  induction r generalizing k with
  | nil => exact absurd h (by simp [findFirstIdx])
  | cons m rest ih =>
    rw [findFirstIdx] at h
    by_cases hp : p m
    · rw [if_pos hp] at h
      injection h with h2
      rw [← h2]
      simp
    · rw [if_neg hp] at h
      cases hfi : findFirstIdx p rest with
      | none => rw [hfi] at h; exact absurd h (by simp)
      | some j =>
        rw [hfi] at h
        injection h with h2
        have hj := ih j hfi
        subst h2
        simp only [List.length_cons]
        omega

/-- The source's last-user split, stated on a bare normalized list, agrees
with the specification-worded split. -/
theorem splitSrc_eq_spec (norm : List NormMsg) :
    (if norm = [] then ([], "")
     else
       match scanRevForUser norm.reverse with
       | some hp => hp
       | none => (norm.dropLast, ((norm.getLast?).map NormMsg.content).getD ""))
    = splitSpec norm := by
  rw [scanRevForUser_eq]
  unfold splitSpec lastUserIdx
  cases hfi : findFirstIdx (fun m => m.role = "user") norm.reverse with
  | none => simp
  | some k =>
    have hk : k < norm.reverse.length := findFirstIdx_lt_length _ _ _ hfi
    rw [List.length_reverse] at hk
    have hne : norm ≠ [] := by
      intro hnil
      rw [hnil] at hk
      simp at hk
    simp only [Option.map, hne, if_false]
    have harith : norm.length - (norm.length - 1 - k) = k + 1 := by omega
    have h1 : (norm.reverse.drop (k + 1)).reverse = norm.take (norm.length - 1 - k) := by
      have ht := List.reverse_take (l := norm) (n := norm.length - 1 - k)
      rw [harith] at ht
      rw [← ht, List.reverse_reverse]
    have h2 : norm.reverse[k]? = norm[norm.length - 1 - k]? := List.getElem?_reverse hk
    rw [h1, h2]

/-- The source split agrees with the specification-worded split. -/
theorem normalizeMessagesForAgent_eq_spec (msgs : List RawMsg) :
    normalizeMessagesForAgent msgs = splitSpec (normalizeList msgs) :=
  splitSrc_eq_spec (normalizeList msgs)

/--
C5: the normalized input sent to the agent takes the last message authored by
the `user` role as the current prompt and all normalized messages before it
as history; if no message has the user role, the last message overall is the
prompt and the remainder is history; and a request from which no non-empty
text prompt can be extracted is rejected with a 400 validation error before
any bus publication and before any correlation registration.
-/
theorem c5_normalization (msgs : List RawMsg) (cfg : APIConfigModel) (ah : Option String)
    (st : Bool) (allow : String → Bool) (rid chat cmpl : String) (now : Nat)
    (rep : Option String) (tbl : PendingTable) :
    normalizeMessagesForAgent msgs = splitSpec (normalizeList msgs) ∧
    ((normalizeMessagesForAgent msgs).2 = "" →
      ∀ pr, authenticateRequest cfg ah = .ok pr →
        (chatCompletions cfg ah ⟨st, .list msgs⟩ allow rid chat cmpl now rep tbl).effects
          = [] ∧
        (chatCompletions cfg ah ⟨st, .list msgs⟩ allow rid chat cmpl
          now rep tbl).tableAfterRegister = tbl ∧
        ∃ d, (chatCompletions cfg ah ⟨st, .list msgs⟩ allow rid chat cmpl
          now rep tbl).response = .httpError 400 d) := by
  refine ⟨normalizeMessagesForAgent_eq_spec msgs, ?_⟩
  intro hp pr hA
  by_cases hm : msgs = []
  · simp [chatCompletions, hA, hm]
  · simp [chatCompletions, hA, hm, hp]

/-- Witness for `c5_normalization` at concrete inputs: two history messages,
an assistant message after the last user message (dropped from history), and
an empty-prompt request that is rejected with a 400 before any effect. -/
theorem c5_normalization_witness :
    normalizeMessagesForAgent
      [.dict (some "system") (.str "sys"), .dict (some "User ") (.str " q1 "),
       .dict (some "assistant") (.str "a1"), .dict (some "user") (.str "q2"),
       .dict (some "assistant") (.str "late")]
      = ([⟨"system", "sys"⟩, ⟨"user", "q1"⟩, ⟨"assistant", "a1"⟩], "q2") ∧
    normalizeMessagesForAgent
      [.dict (some "system") (.str "sys"), .dict (some "assistant") (.str "a1")]
      = ([⟨"system", "sys"⟩], "a1") ∧
    (chatCompletions ⟨[("k", "alice")], none⟩ (some "Bearer k")
        ⟨false, .list [.dict (some "user") (.str "   ")]⟩ (fun _ => true)
        "rid" "chat" "cmpl" 0 (some "hello") []).effects = [] ∧
    (chatCompletions ⟨[("k", "alice")], none⟩ (some "Bearer k")
        ⟨false, .list [.dict (some "user") (.str "   ")]⟩ (fun _ => true)
        "rid" "chat" "cmpl" 0 (some "hello") []).response
      = .httpError 400 "could not extract text prompt from messages" := by
  have h := c5_normalization [RawMsg.dict (some "user") (.str "   ")]
    ⟨[("k", "alice")], none⟩ (some "Bearer k") false (fun _ => true)
    "rid" "chat" "cmpl" 0 (some "hello") []
  have h2 := h.2 (by decide) "alice" rfl
  exact ⟨by decide, by decide, h2.1, by decide⟩

/--
C3: every HTTP request whose bearer-token authentication fails is rejected by
the middleware with the authentication error (401 missing/invalid, 500
unconfigured) with zero effects — no bus publication, no correlation-table
registration; every authenticated request whose sender fails the allow-list
check is rejected with an error response and zero effects; and every
WebSocket handshake that fails the allow-list or session-token check is
closed with policy-violation code 1008 before acceptance, with the
connection registry untouched and zero bus effects.
-/
theorem c3_auth_short_circuit
    (cfg : APIConfigModel) (ah : Option String) (p : CCPayload) (allow : String → Bool)
    (rid chat cmpl : String) (now : Nat) (rep : Option String) (tbl : PendingTable)
    (wcfg : WebUIConfigModel) (tokens : List String) (host wchat wtok : String)
    (ws : Nat) (m : ConnMap) :
    (∀ s d, authenticateRequest cfg ah = .error (s, d) →
       chatCompletions cfg ah p allow rid chat cmpl now rep tbl
         = ⟨.httpError s d, [], tbl⟩) ∧
    (∀ pr sid, authenticateRequest cfg ah = .ok pr → senderId pr = .ok sid →
       ¬ allow sid →
       (chatCompletions cfg ah p allow rid chat cmpl now rep tbl).effects = [] ∧
       (chatCompletions cfg ah p allow rid chat cmpl now rep tbl).tableAfterRegister
         = tbl ∧
       ∃ s d, (chatCompletions cfg ah p allow rid chat cmpl now rep tbl).response
         = .httpError s d) ∧
    (¬ allow ("web:" ++ host) ∨ ¬ checkToken wcfg tokens wtok →
       wsHandshake wcfg tokens allow host wchat wtok ws m = ⟨some 1008, false, m, []⟩) := by
  refine ⟨?_, ?_, ?_⟩
  · intro s d hA
    simp [chatCompletions, hA]
  · intro pr sid hA hS hN
    cases hm : p.messages with
    | absent =>
      have heq : chatCompletions cfg ah p allow rid chat cmpl now rep tbl
          = ⟨.httpError 400 "messages must be a non-empty array", [], tbl⟩ := by
        simp [chatCompletions, hA, hm]
      rw [heq]
      exact ⟨rfl, rfl, 400, "messages must be a non-empty array", rfl⟩
    | notAList =>
      have heq : chatCompletions cfg ah p allow rid chat cmpl now rep tbl
          = ⟨.httpError 400 "messages must be a non-empty array", [], tbl⟩ := by
        simp [chatCompletions, hA, hm]
      rw [heq]
      exact ⟨rfl, rfl, 400, "messages must be a non-empty array", rfl⟩
    | list msgs =>
      by_cases hnil : msgs = []
      · have heq : chatCompletions cfg ah p allow rid chat cmpl now rep tbl
            = ⟨.httpError 400 "messages must be a non-empty array", [], tbl⟩ := by
          simp [chatCompletions, hA, hm, hnil]
        rw [heq]
        exact ⟨rfl, rfl, 400, "messages must be a non-empty array", rfl⟩
      · by_cases hp : (normalizeMessagesForAgent msgs).2 = ""
        · have heq : chatCompletions cfg ah p allow rid chat cmpl now rep tbl
              = ⟨.httpError 400 "could not extract text prompt from messages", [], tbl⟩ := by
            simp [chatCompletions, hA, hm, hnil, hp]
          rw [heq]
          exact ⟨rfl, rfl, 400, "could not extract text prompt from messages", rfl⟩
        · have heq : chatCompletions cfg ah p allow rid chat cmpl now rep tbl
              = ⟨.httpError 403 "sender not allowed", [], tbl⟩ := by
            simp [chatCompletions, hA, hm, hnil, hp, hS, hN]
          rw [heq]
          exact ⟨rfl, rfl, 403, "sender not allowed", rfl⟩
  · intro h
    rcases h with hA | hT
    · simp [wsHandshake, hA]
    · by_cases hAl : allow ("web:" ++ host)
      · simp [wsHandshake, hAl, hT]
      · simp [wsHandshake, hAl]

/-- Witness for `c3_auth_short_circuit` at concrete inputs: a request with no
authorization header, an authenticated request from a disallowed sender, and
a WebSocket handshake with a bad session token. -/
theorem c3_auth_short_circuit_witness :
    chatCompletions ⟨[("k", "alice")], none⟩ none
        ⟨false, .list [.dict (some "user") (.str "hi")]⟩ (fun _ => true)
        "rid" "chat" "cmpl" 0 (some "hello") []
      = ⟨.httpError 401 "missing bearer token", [], []⟩ ∧
    (chatCompletions ⟨[("k", "alice")], none⟩ (some "Bearer k")
        ⟨false, .list [.dict (some "user") (.str "hi")]⟩ (fun _ => false)
        "rid" "chat" "cmpl" 0 (some "hello") []).effects = [] ∧
    wsHandshake ⟨"u", "p"⟩ [] (fun _ => true) "1.2.3.4" "c" "bad" 7 [("c", 5)]
      = ⟨some 1008, false, [("c", 5)], []⟩ :=
  have h1 := (c3_auth_short_circuit ⟨[("k", "alice")], none⟩ none
    ⟨false, .list [.dict (some "user") (.str "hi")]⟩ (fun _ => true)
    "rid" "chat" "cmpl" 0 (some "hello") [] ⟨"u", "p"⟩ [] "1.2.3.4" "c" "bad" 7
    [("c", 5)]).1 401 "missing bearer token" rfl
  have h2 := (c3_auth_short_circuit ⟨[("k", "alice")], none⟩ (some "Bearer k")
    ⟨false, .list [.dict (some "user") (.str "hi")]⟩ (fun _ => false)
    "rid" "chat" "cmpl" 0 (some "hello") [] ⟨"u", "p"⟩ [] "1.2.3.4" "c" "bad" 7
    [("c", 5)]).2.1 "alice" "alice" rfl rfl (by decide)
  have h3 := (c3_auth_short_circuit ⟨[("k", "alice")], none⟩ none
    ⟨false, .list [.dict (some "user") (.str "hi")]⟩ (fun _ => true)
    "rid" "chat" "cmpl" 0 (some "hello") [] ⟨"u", "p"⟩ [] "1.2.3.4" "c" "bad" 7
    [("c", 5)]).2.2 (Or.inr (by decide))
  ⟨h1, h2.1, h3⟩

/--
C7 counterexample: the claim says registering a correlation id already present
in the pending table fails with a `DuplicateId` error, presence being actually
checked.  In the code `self._pending[request_id] = fut` performs a plain dict
assignment with no presence check: at the concrete input below the id `"dup"`
is already pending, yet the request completes normally (no error response),
the message is published to the bus, and the old entry is silently
overwritten.
-/
theorem c7_duplicate_register_counterexample :
    lookupTable "dup" [("dup", FutState.pending)] = some FutState.pending ∧
    (chatCompletions ⟨[("k", "alice")], none⟩ (some "Bearer k")
        ⟨false, .list [.dict (some "user") (.str "hi")]⟩ (fun _ => true)
        "dup" "chat" "cmpl" 0 (some "hello") [("dup", FutState.pending)]).response
      = .completion (nonStreamingResponse "cmpl" 0 "hello") ∧
    (chatCompletions ⟨[("k", "alice")], none⟩ (some "Bearer k")
        ⟨false, .list [.dict (some "user") (.str "hi")]⟩ (fun _ => true)
        "dup" "chat" "cmpl" 0 (some "hello") [("dup", FutState.pending)]).effects
      = [.registered "dup", .published "alice" "chat" "hi" []] ∧
    (chatCompletions ⟨[("k", "alice")], none⟩ (some "Bearer k")
        ⟨false, .list [.dict (some "user") (.str "hi")]⟩ (fun _ => true)
        "dup" "chat" "cmpl" 0 (some "hello") [("dup", FutState.pending)]).tableAfterRegister
      = [("dup", FutState.pending)] := by
  decide

/-- Eviction of one id leaves lookups of other ids unchanged. -/
theorem lookupTable_popTable_other (id k : String) (tbl : PendingTable) (hk : k ≠ id) :
    lookupTable k (popTable id tbl) = lookupTable k tbl := by
  induction tbl with
  | nil => rfl
  | cons e rest ih =>
    by_cases hek : e.1 = id
    · have hidk : ¬ id = k := fun h => hk (Eq.symm h)
      have hne : ¬ e.1 = k := fun h => hk (h ▸ hek)
      simpa [lookupTable, popTable, List.filter_cons, List.find?, hek, hne, hidk] using ih
    · have hpop : popTable id (e :: rest) = e :: popTable id rest := by
        simp [popTable, List.filter_cons, hek]
      rw [hpop]
      by_cases hekk : e.1 = k
      · simp [lookupTable, List.find?_cons_of_pos, hekk]
      · rw [lookupTable, List.find?_cons_of_neg _ (by simp [hekk]),
          lookupTable, List.find?_cons_of_neg _ (by simp [hekk])]
        exact ih

/-- The unchecked overwrite leaves lookups of other ids unchanged. -/
theorem lookupTable_insertPending_other (id k : String) (tbl : PendingTable) (hk : k ≠ id) :
    lookupTable k (insertPending id tbl) = lookupTable k tbl := by
  rw [insertPending]
  have hnone : List.find? (fun e => e.1 = k) [(id, FutState.pending)] = none := by
    simp [List.find?, Ne.symm hk]
  rw [lookupTable, List.find?_append, hnone]
  simp only [Option.or_none]
  exact lookupTable_popTable_other id k tbl hk

/--
C7 (amended): registration performs no presence check: inserting a request id
silently replaces any existing entry for the same id (whose waiter becomes
unreachable through the table), other ids are untouched, the handler never
fails because of a duplicate, and uniqueness rests on the uuid4 generation
policy rather than on a check.
-/
theorem c7_register_unchecked (id : String) (tbl : PendingTable)
    (cfg : APIConfigModel) (ah : Option String) (p : CCPayload) (allow : String → Bool)
    (chat cmpl : String) (now : Nat) (rep : Option String) :
    lookupTable id (insertPending id tbl) = some FutState.pending ∧
    (∀ k, k ≠ id → lookupTable k (insertPending id tbl) = lookupTable k tbl) ∧
    (∀ g, (id, g) ∈ insertPending id tbl → g = .pending) ∧
    ((chatCompletions cfg ah p allow id chat cmpl now rep tbl).tableAfterRegister = tbl ∨
     (chatCompletions cfg ah p allow id chat cmpl now rep tbl).tableAfterRegister
       = insertPending id tbl) := by
  refine ⟨?_, ?_, ?_, ?_⟩
  · induction tbl with
    | nil => simp [lookupTable, insertPending, popTable]
    | cons e rest ih =>
      by_cases hek : e.1 = id <;>
        simp [lookupTable, insertPending, popTable, List.filter_cons, List.find?, hek]
  · intro k hk
    exact lookupTable_insertPending_other id k tbl hk
  · intro g hg
    rw [insertPending, List.mem_append] at hg
    rcases hg with hg | hg
    · rw [popTable, List.mem_filter] at hg
      simp at hg
    · simpa using hg
  · simp only [chatCompletions]
    repeat' split
    all_goals first | exact Or.inl rfl | exact Or.inr rfl

/-- Witness for `c7_register_unchecked` at concrete inputs. -/
theorem c7_register_unchecked_witness :
    lookupTable "dup" (insertPending "dup" [("dup", FutState.cancelled)])
      = some FutState.pending ∧
    lookupTable "other" (insertPending "dup" [("other", FutState.resolved "r")])
      = lookupTable "other" [("other", FutState.resolved "r")] ∧
    FutState.cancelled ≠ FutState.pending :=
  have h := c7_register_unchecked "dup" [("dup", FutState.cancelled)]
    ⟨[], none⟩ none ⟨false, .absent⟩ (fun _ => true) "chat" "cmpl" 0 none
  have h2 := c7_register_unchecked "dup" [("other", FutState.resolved "r")]
    ⟨[], none⟩ none ⟨false, .absent⟩ (fun _ => true) "chat" "cmpl" 0 none
  ⟨h.1, h2.2.1 "other" (by decide), by decide⟩

/-- The streamed deltas concatenate to exactly the agent reply. -/
theorem deltaConcat_eventStreamChunks (cmpl : String) (now : Nat) (r : String) :
    deltaConcat (eventStreamChunks cmpl now r) = r := by
  simp [deltaConcat, eventStreamChunks, firstChunk, finalChunk, String.join]

/--
C2: for the same `messages` input and the same agent reply text, whenever the
non-streaming run of `chat_completions` produces a `chat.completion` response,
the streaming run with the same inputs produces exactly the two
`chat.completion.chunk` events (a content-carrying assistant delta with null
`finish_reason`, then an empty delta with `finish_reason` `"stop"`), and
`choices[0].message.content` of the non-streaming response equals the
concatenation of the streamed delta contents — both being byte-identical to
the agent reply, only the framing differing.
-/
theorem c2_stream_nonstream_equivalence
    (cfg : APIConfigModel) (ah : Option String) (mf : MessagesField)
    (allow : String → Bool) (rid chat cmpl : String) (now : Nat) (r : String)
    (tbl : PendingTable) (resp : ChatCompletionResponse)
    (h : (chatCompletions cfg ah ⟨false, mf⟩ allow rid chat cmpl now (some r) tbl).response
        = .completion resp) :
    (chatCompletions cfg ah ⟨true, mf⟩ allow rid chat cmpl now (some r) tbl).response
      = .streamOk (eventStreamChunks cmpl now r) ∧
    resp = nonStreamingResponse cmpl now r ∧
    resp.choices.map (fun c => c.message.content)
      = [deltaConcat (eventStreamChunks cmpl now r)] ∧
    eventStreamChunks cmpl now r
      = [⟨cmpl, "chat.completion.chunk", now, "nanobot-agent",
          [⟨0, ⟨some "assistant", some r⟩, none⟩]⟩,
         ⟨cmpl, "chat.completion.chunk", now, "nanobot-agent",
          [⟨0, ⟨none, none⟩, some "stop"⟩]⟩] ∧
    deltaConcat (eventStreamChunks cmpl now r) = r := by
  have hd := deltaConcat_eventStreamChunks cmpl now r
  cases hA : authenticateRequest cfg ah with
  | error e =>
    simp [chatCompletions, hA] at h
  | ok pr =>
    cases hm : mf with
    | absent => simp [chatCompletions, hA, hm] at h
    | notAList => simp [chatCompletions, hA, hm] at h
    | list msgs =>
      by_cases hnil : msgs = []
      · simp [chatCompletions, hA, hm, hnil] at h
      · by_cases hp : (normalizeMessagesForAgent msgs).2 = ""
        · simp [chatCompletions, hA, hm, hnil, hp] at h
        · cases hS : senderId pr with
          | error e2 => simp [chatCompletions, hA, hm, hnil, hp, hS] at h
          | ok sid =>
            by_cases hAl : allow sid
            · have hr : resp = nonStreamingResponse cmpl now r := by
                simp [chatCompletions, hA, hm, hnil, hp, hS, hAl] at h
                exact h.symm
              refine ⟨?_, hr, ?_, rfl, hd⟩
              · simp [chatCompletions, hA, hm, hnil, hp, hS, hAl]
              · rw [hr, hd]
                rfl
            · simp [chatCompletions, hA, hm, hnil, hp, hS, hAl] at h

/-- Witness for `c2_stream_nonstream_equivalence` at concrete inputs: the
request `messages=[{"role":"user","content":"hi"}]` with agent reply
`"hello"`. -/
theorem c2_stream_nonstream_equivalence_witness :
    (chatCompletions ⟨[("k", "alice")], none⟩ (some "Bearer k")
        ⟨true, .list [.dict (some "user") (.str "hi")]⟩ (fun _ => true)
        "rid" "chat" "cmpl" 5 (some "hello") []).response
      = .streamOk (eventStreamChunks "cmpl" 5 "hello") ∧
    (nonStreamingResponse "cmpl" 5 "hello").choices.map (fun c => c.message.content)
      = [deltaConcat (eventStreamChunks "cmpl" 5 "hello")] ∧
    deltaConcat (eventStreamChunks "cmpl" 5 "hello") = "hello" :=
  have h := c2_stream_nonstream_equivalence ⟨[("k", "alice")], none⟩ (some "Bearer k")
    (.list [.dict (some "user") (.str "hi")]) (fun _ => true)
    "rid" "chat" "cmpl" 5 "hello" [] (nonStreamingResponse "cmpl" 5 "hello") (by decide)
  ⟨h.1, h.2.1 ▸ h.2.2.1, h.2.2.2.2⟩

/--
C9 counterexample: the claim says every frame of unrecognized shape is
ignored, not rejected, with the connection staying open.  A valid-JSON frame
that is not an object — here the array `[]` — is a frame of unrecognized
shape, yet `data.get("type")` raises `AttributeError` on it, the receive loop
ends, the `finally` block evicts the registry entry, and the handler returns,
closing the connection.
-/
theorem c9_unrecognized_frame_counterexample :
    processFrame (some (.arr [])) = .crash "AttributeError: get" ∧
    (frameEffect (some (.arr [])) "c" [("c", 7)]).2 = false ∧
    (frameEffect (some (.arr [])) "c" [("c", 7)]).1 = [] := by
  decide

/--
C9 (amended): a `"message"` frame whose stripped text is empty but which
carries at least one media reference is still dispatched to the bus with the
placeholder prompt `"[file]"`; a JSON-object frame whose `type` is not the
string `"message"` is ignored — nothing is dispatched and the connection
stays open; but a frame that is not a JSON object, or is not valid JSON,
raises, which terminates the connection and evicts the registry entry.
-/
theorem c9_frame_handling (fields : List (String × JVal)) (chatId : String)
    (m : ConnMap) (media : List String) (items : List JVal) :
    (lookupField "type" fields = some (.str "message") →
     pyStrip (pyStr ((lookupField "content" fields).getD (.str ""))) = "" →
     mediaPaths fields = .ok media → media ≠ [] →
     processFrame (some (.obj fields)) = .dispatch "[file]" media ∧
     (frameEffect (some (.obj fields)) chatId m).2 = true) ∧
    ((∀ t, lookupField "type" fields = some (.str t) → t ≠ "message") →
     processFrame (some (.obj fields)) = .ignore ∧
     frameEffect (some (.obj fields)) chatId m = (m, true)) ∧
    frameEffect (some (.arr items)) chatId m = (popConn chatId m, false) ∧
    frameEffect none chatId m = (popConn chatId m, false) := by
  refine ⟨?_, ?_, rfl, rfl⟩
  · intro ht hc hmp hne
    have hpf : processFrame (some (.obj fields)) = .dispatch "[file]" media := by
      simp [processFrame, ht, hc, hmp, hne]
    exact ⟨hpf, by simp [frameEffect, hpf]⟩
  · intro h
    have hpf : processFrame (some (.obj fields)) = .ignore := by
      simp only [processFrame]
      cases hl : lookupField "type" fields with
      | none => rfl
      | some v =>
        cases v with
        | str t =>
          have := h t hl
          simp [this]
        | null => rfl
        | bool b => rfl
        | num n => rfl
        | arr l => rfl
        | obj fs => rfl
    exact ⟨hpf, by simp [frameEffect, hpf]⟩

/-- Witness for `c9_frame_handling` at concrete inputs: an empty-text message
frame carrying one media reference, and a frame of unrecognized object
shape. -/
theorem c9_frame_handling_witness :
    processFrame (some (.obj [("type", .str "message"), ("content", .str "  "),
        ("media_paths", .arr [.str "/a.png"])]))
      = .dispatch "[file]" ["/a.png"] ∧
    processFrame (some (.obj [("type", .str "ping")])) = .ignore ∧
    frameEffect (some (.obj [("type", .str "ping")])) "c" [("c", 7)] = ([("c", 7)], true) :=
  have h1 := (c9_frame_handling
    [("type", .str "message"), ("content", .str "  "), ("media_paths", .arr [.str "/a.png"])]
    "c" [("c", 7)] ["/a.png"] []).1 rfl (by decide) rfl (by decide)
  have h2 := (c9_frame_handling [("type", .str "ping")] "c" [("c", 7)] [] []).2.1
    (by
      intro t ht
      injection ht with h1
      injection h1 with h2
      subst h2
      decide)
  ⟨h1.1, h2.1, h2.2⟩

/-- `join` of a non-empty line list extends its first line. -/
theorem joinWith_cons_exists (sep x : String) (xs : List String) :
    ∃ r, joinWith sep (x :: xs) = x ++ r := by
  cases xs with
  | nil => exact ⟨"", by simp [joinWith]⟩
  | cons y ys => exact ⟨sep ++ joinWith sep (y :: ys), by simp [joinWith, String.append_assoc]⟩

/-- A non-empty search rendering starts with the `Results for: ` header. -/
theorem renderSearchResults_shape (query : String) (results : List SearchResult) (n : Nat) :
    ∃ r, renderSearchResults query results n = "Results for: " ++ r := by
  unfold renderSearchResults
  obtain ⟨r, hr⟩ := joinWith_cons_exists "\n" ("Results for: " ++ query ++ "\n")
    (((results.take n).enum.flatMap (fun ie =>
      [toString (ie.1 + 1) ++ ". " ++ ie.2.title ++ "\n   " ++ ie.2.url] ++
      (if ie.2.description ≠ "" then ["   " ++ ie.2.description] else []))))
  refine ⟨query ++ ("\n" ++ r), ?_⟩
  rw [show ("Results for: " ++ query ++ "\n") ++ r
      = "Results for: " ++ (query ++ ("\n" ++ r)) by
    rw [String.append_assoc, String.append_assoc]] at hr
  exact hr

/-- Every successful search output is a recognizable rendering. -/
theorem webSearch_render_shape (query : String) (res : List SearchResult) (n : Nat) :
    (if res = [] then "No results for: " ++ query else renderSearchResults query res n)
      = "No results for: " ++ query ∨
    ∃ rest, (if res = [] then "No results for: " ++ query
             else renderSearchResults query res n) = "Results for: " ++ rest := by
  by_cases h : res = []
  · left
    simp [h]
  · right
    simp only [h, if_false]
    exact renderSearchResults_shape query res n

/-- The fetch error object is a JSON object string. -/
theorem fetchErrorJson_shape (e u : String) :
    ∃ flds, fetchErrorJson e u = jsonDumps (.obj flds) := ⟨_, rfl⟩

/-- The fetch success payload is a JSON object string. -/
theorem fetchPayloadJson_shape (url : String) (r : HttpResp) (page : ProcessedPage)
    (text : String) (tr : Bool) :
    ∃ flds, fetchPayloadJson url r page text tr = jsonDumps (.obj flds) := ⟨_, rfl⟩

/--
C10: at their public interface, `WebSearchTool.execute` and
`WebFetchTool.execute` always return a string and never propagate an
exception: every failure of the search pipeline is reported as
`"Error: <message>"` (and every success renders as a results listing or the
no-results line); `web_fetch` reports invalid URLs as
`{"error": "URL validation failed: ...", "url": ...}`, blocked private/local
targets as `{"error": "URL blocked: ...", "url": ...}`, any exception raised
while fetching or extracting as `{"error": <message>, "url": ...}`, and in
every case the result is a JSON object string.
-/
theorem c10_web_tools_error_shapes
    (maxResults : Int) (query : String) (count : Option Int)
    (net : Except String String) (extract : String → Nat → List SearchResult)
    (defaultMaxChars : Int) (env : FetchEnv) (url : String) (maxChars : Option Int)
    (terms : Option (List String)) (startIndex : Int) :
    (∀ e, net = .error e →
       webSearchExecute maxResults query count net extract = "Error: " ++ e) ∧
    (∀ body, net = .ok body →
       webSearchExecute maxResults query count net extract
         = "No results for: " ++ query ∨
       ∃ rest, webSearchExecute maxResults query count net extract
         = "Results for: " ++ rest) ∧
    ((validateUrl url).1 = false →
       webFetchExecute defaultMaxChars env url maxChars terms startIndex
         = fetchErrorJson ("URL validation failed: " ++ (validateUrl url).2) url) ∧
    ((validateUrl url).1 = true → (validatePublicTarget env.dns url).1 = false →
       webFetchExecute defaultMaxChars env url maxChars terms startIndex
         = fetchErrorJson ("URL blocked: " ++ (validatePublicTarget env.dns url).2) url) ∧
    (∀ e, (validateUrl url).1 = true → (validatePublicTarget env.dns url).1 = true →
       (safeGet env.dns env.net url).bind
         (fun r => (env.process r).map (fun p => (r, p))) = .error e →
       webFetchExecute defaultMaxChars env url maxChars terms startIndex
         = fetchErrorJson e url) ∧
    (∃ flds, webFetchExecute defaultMaxChars env url maxChars terms startIndex
       = jsonDumps (.obj flds)) := by
  refine ⟨?_, ?_, ?_, ?_, ?_, ?_⟩
  · intro e he
    simp [webSearchExecute, he]
  · intro body hb
    simp only [webSearchExecute, hb]
    exact webSearch_render_shape query _ _
  · intro hv
    simp [webFetchExecute, hv]
  · intro hv1 hv2
    simp [webFetchExecute, hv1, hv2]
  · intro e hv1 hv2 hpipe
    simp [webFetchExecute, hv1, hv2, hpipe]
  · simp only [webFetchExecute]
    repeat' split
    all_goals
      first
        | exact fetchErrorJson_shape _ _
        | exact fetchPayloadJson_shape _ _ _ _ _

/-- Witness for `c10_web_tools_error_shapes` at concrete inputs: a failing
search, an invalid-scheme URL, a loopback target, and a failing fetch. -/
theorem c10_web_tools_error_shapes_witness :
    webSearchExecute 5 "q" none (.error "boom") (fun _ _ => []) = "Error: boom" ∧
    webFetchExecute 100 ⟨fun _ => .error (), fun _ => .error "net down",
        fun _ => .error "nope"⟩ "ftp://x" none none 0
      = fetchErrorJson ("URL validation failed: " ++ (validateUrl "ftp://x").2) "ftp://x" ∧
    webFetchExecute 100 ⟨fun _ => .error (), fun _ => .error "net down",
        fun _ => .error "nope"⟩ "http://127.0.0.1/" none none 0
      = fetchErrorJson
          ("URL blocked: " ++ (validatePublicTarget (fun _ => .error ()) "http://127.0.0.1/").2)
          "http://127.0.0.1/" ∧
    webFetchExecute 100 ⟨fun _ => .error (), fun _ => .error "net down",
        fun _ => .error "nope"⟩ "http://example.com/" none none 0
      = fetchErrorJson "net down" "http://example.com/" :=
  have hs := (c10_web_tools_error_shapes 5 "q" none (.error "boom") (fun _ _ => [])
    100 ⟨fun _ => .error (), fun _ => .error "net down", fun _ => .error "nope"⟩
    "ftp://x" none none 0).1 "boom" rfl
  have h3 := (c10_web_tools_error_shapes 5 "q" none (.error "boom") (fun _ _ => [])
    100 ⟨fun _ => .error (), fun _ => .error "net down", fun _ => .error "nope"⟩
    "ftp://x" none none 0).2.2.1 (by decide)
  have h4 := (c10_web_tools_error_shapes 5 "q" none (.error "boom") (fun _ _ => [])
    100 ⟨fun _ => .error (), fun _ => .error "net down", fun _ => .error "nope"⟩
    "http://127.0.0.1/" none none 0).2.2.2.1 (by decide) (by decide)
  have h5 := (c10_web_tools_error_shapes 5 "q" none (.error "boom") (fun _ _ => [])
    100 ⟨fun _ => .error (), fun _ => .error "net down", fun _ => .error "nope"⟩
    "http://example.com/" none none 0).2.2.2.2.1 "net down" (by decide) (by decide) rfl
  ⟨hs, h3, h4, h5⟩

end Nanobot
